import Mathlib

/-!
# P08ServerSet API types and their JSON wire form

A shallow embedding of `api/v1/p08serverset_types.go` and
`api/v1/p08serverset_inheritance.go`.

The two source files declare Go structs whose only behaviour is the one their
`json:"..."` struct tags give them under the JSON codec of the Kubernetes API
machinery.  Each struct tag is reproduced here verbatim, as a string, and is
interpreted by `parseTag`, which follows the tag grammar of the Go codec: the
key is the text before the first comma, the options are the comma separated
words after it.

Conventions of the embedding.

* A document is a `Json` tree; objects keep the order of their keys.
* `int32` and `int64` are integers bundled with their range.
* A Go pointer is an `Option`.
* A Go slice is a `List`: the slice of length zero is taken as the nil slice,
  both are `[]`, and `[]` is written `null` where the tag has no `omitempty`,
  as the nil slice is; the decoder reads `null` and the empty array alike.
* A Go string is a `String`: Unicode text.
* A struct declared outside the two source files (`v1.PodTemplateSpec`,
  `metav1.LabelSelector`, `v1.PersistentVolumeClaim`, `metav1.ObjectMeta`) is
  carried as the JSON object it is written as, and `intstr.IntOrString` is a
  number or a string.
* `metav1.Time` is an instant with its nanoseconds.  It is written in the
  layout of RFC 3339 in UTC, which has no place for the nanoseconds, and read
  back by a parser of that layout.
* Object keys are compared exactly, as the Kubernetes decoder does.
* Reading an object stores its members one after the other, so that a key
  that occurs twice is stored twice; a struct carried as its object, and a
  slice, are replaced as a whole by the later occurrence.
-/

namespace V1

/-! ## Documents -/

/-- JSON documents.  Numbers are integers: no field of the two source files
holds a fraction. -/
inductive Json where
  | null : Json
  | bool (b : Bool) : Json
  | num (n : Int) : Json
  | str (s : String) : Json
  | arr (xs : List Json) : Json
  | obj (kvs : List (String × Json)) : Json

/-- The members of a JSON object, in document order. -/
abbrev Object := List (String × Json)

/-- The keys of an object, in document order. -/
def keys (o : Object) : List String := o.map Prod.fst

/-- The value stored under a key: the first member with that key. -/
def get? (o : Object) (k : String) : Option Json :=
  match o.find? (fun kv => kv.1 = k) with
  | some kv => some kv.2
  | none => none

/-- The members of a document that is an object; none for any other document. -/
def Json.members : Json → Object
  | Json.obj kvs => kvs
  | _ => []

/-! ## Machine integers -/

/-- Go `int32`. -/
abbrev GoInt32 := { n : Int // -2147483648 ≤ n ∧ n ≤ 2147483647 }

/-- Go `int64`. -/
abbrev GoInt64 := { n : Int // -9223372036854775808 ≤ n ∧ n ≤ 9223372036854775807 }

/-- The zero value of `int32`. -/
def GoInt32.zero : GoInt32 := ⟨0, by decide⟩

/-- The zero value of `int64`. -/
def GoInt64.zero : GoInt64 := ⟨0, by decide⟩

/-! ## Struct tags -/

/-- What the codec reads from a `json:"..."` tag. -/
structure TagInfo where
  name : String
  omitEmpty : Bool
deriving DecidableEq, Repr

/-- Cut a tag at every comma. -/
def splitComma : List Char → List (List Char)
  | [] => [[]]
  | c :: cs =>
    if c = ',' then [] :: splitComma cs
    else
      match splitComma cs with
      | [] => [[c]]
      | w :: ws => (c :: w) :: ws

/-- The key is the text before the first comma; `omitempty` holds when it is
one of the comma separated options after it. -/
def parseTag (tag : String) : TagInfo :=
  match splitComma tag.data with
  | [] => ⟨"", false⟩
  | name :: opts => ⟨String.mk name, opts.contains "omitempty".data⟩

/-! ## Writing a struct -/

/-- One struct field as the encoder sees it: its tag, whether its value is
the empty value of its kind, and the document of its value. -/
structure Field where
  tag : String
  empty : Bool
  value : Json

/-- A field is skipped when its tag says `omitempty` and its value is empty;
otherwise it is written under the key of its tag. -/
def Field.emit (f : Field) : Object :=
  if (parseTag f.tag).omitEmpty && f.empty then []
  else [((parseTag f.tag).name, f.value)]

/-- The members written for a list of fields, in declaration order. -/
def emitAll : List Field → Object
  | [] => []
  | f :: fs => f.emit ++ emitAll fs

/-- The document of an `int32`. -/
def marshalInt32 (n : GoInt32) : Json := Json.num n.val

/-- An `int32` field: empty when zero. -/
def int32Field (tag : String) (n : GoInt32) : Field :=
  ⟨tag, decide (n.val = 0), marshalInt32 n⟩

/-- An `int64` field: empty when zero. -/
def int64Field (tag : String) (n : GoInt64) : Field :=
  ⟨tag, decide (n.val = 0), Json.num n.val⟩

/-- A string field: empty when of length zero. -/
def stringField (tag : String) (s : String) : Field :=
  ⟨tag, decide (s = ""), Json.str s⟩

/-- A pointer field: empty when nil, and a nil pointer is written `null`. -/
def ptrField (tag : String) (v : Option Json) : Field :=
  ⟨tag, v.isNone, v.getD Json.null⟩

/-- The document of a slice, given the documents of its elements: the slice
of length zero is the nil slice, which is written `null`. -/
def marshalSlice (vs : List Json) : Json :=
  if vs.isEmpty then Json.null else Json.arr vs

/-- A slice field: empty when of length zero. -/
def sliceField (tag : String) (vs : List Json) : Field :=
  ⟨tag, vs.isEmpty, marshalSlice vs⟩

/-- A struct field: a struct is never empty. -/
def structField (tag : String) (v : Json) : Field :=
  ⟨tag, false, v⟩

/-! ## Reading a struct -/

/-- Read the members of an object into a struct, one after the other; `set`
stores one member. -/
def unmarshalObject {σ : Type} (set : σ → String → Json → Except String σ) :
    σ → Object → Except String σ
  | s, [] => Except.ok s
  | s, (k, v) :: rest =>
    match set s k v with
    | Except.ok s1 => unmarshalObject set s1 rest
    | Except.error e => Except.error e

/-- Read a document into a struct: `null` leaves it as it is, an object is
read member by member, anything else is a type error. -/
def unmarshalStruct {σ : Type} (set : σ → String → Json → Except String σ)
    (cur : σ) : Json → Except String σ
  | Json.null => Except.ok cur
  | Json.obj kvs => unmarshalObject set cur kvs
  | _ => Except.error "cannot unmarshal into struct"

/-- Read a document into an `int32`. -/
def unmarshalInt32 (cur : GoInt32) : Json → Except String GoInt32
  | Json.null => Except.ok cur
  | Json.num n =>
    if h : -2147483648 ≤ n ∧ n ≤ 2147483647 then Except.ok ⟨n, h⟩
    else Except.error "number out of range for int32"
  | _ => Except.error "cannot unmarshal into int32"

/-- Read a document into an `int64`. -/
def unmarshalInt64 (cur : GoInt64) : Json → Except String GoInt64
  | Json.null => Except.ok cur
  | Json.num n =>
    if h : -9223372036854775808 ≤ n ∧ n ≤ 9223372036854775807 then Except.ok ⟨n, h⟩
    else Except.error "number out of range for int64"
  | _ => Except.error "cannot unmarshal into int64"

/-- Read a document into a string. -/
def unmarshalString (cur : String) : Json → Except String String
  | Json.null => Except.ok cur
  | Json.str s => Except.ok s
  | _ => Except.error "cannot unmarshal into string"

/-- Read a document into a pointer: `null` sets it to nil, anything else is
read into the pointee (a fresh zero value when the pointer was nil). -/
def unmarshalPtr {α : Type} (dec : α → Json → Except String α) (zero : α)
    (cur : Option α) : Json → Except String (Option α)
  | Json.null => Except.ok none
  | v =>
    match dec (cur.getD zero) v with
    | Except.ok a => Except.ok (some a)
    | Except.error e => Except.error e

/-- Read the elements of an array, each into a fresh zero value. -/
def unmarshalElems {α : Type} (dec : α → Json → Except String α) (zero : α) :
    List Json → Except String (List α)
  | [] => Except.ok []
  | v :: vs =>
    match dec zero v with
    | Except.error e => Except.error e
    | Except.ok a =>
      match unmarshalElems dec zero vs with
      | Except.ok as => Except.ok (a :: as)
      | Except.error e => Except.error e

/-- Read a document into a slice: `null` gives the nil slice. -/
def unmarshalSlice {α : Type} (dec : α → Json → Except String α) (zero : α) :
    Json → Except String (List α)
  | Json.null => Except.ok []
  | Json.arr vs => unmarshalElems dec zero vs
  | _ => Except.error "cannot unmarshal into slice"

/-- Read a document into a struct declared outside this package, which is
carried as its object. -/
def unmarshalExternal (cur : Object) : Json → Except String Object
  | Json.null => Except.ok cur
  | Json.obj kvs => Except.ok kvs
  | _ => Except.error "cannot unmarshal into struct"

/-! ## p08serverset_inheritance.go -/

/-- PodManagementPolicyType defines the policy for creating pods under a
stateful set: a Go string type. -/
abbrev PodManagementPolicyType := String

/-- The pods are created in increasing order, one at a time. -/
def OrderedReadyPodManagement : PodManagementPolicyType := "OrderedReady"

/-- The pods are created and deleted without waiting. -/
def ParallelPodManagement : PodManagementPolicyType := "Parallel"

/-- StatefulSetUpdateStrategyType enumerates the update strategies: a Go
string type. -/
abbrev StatefulSetUpdateStrategyType := String

/-- The update is applied to all pods, in order. -/
def RollingUpdateStatefulSetStrategyType : StatefulSetUpdateStrategyType := "RollingUpdate"

/-- The pods are recreated when they are deleted by hand. -/
def OnDeleteStatefulSetStrategyType : StatefulSetUpdateStrategyType := "OnDelete"

/-- PersistentVolumeClaimRetentionPolicyType enumerates the retention
policies: a Go string type. -/
abbrev PersistentVolumeClaimRetentionPolicyType := String

/-- The claims are kept. -/
def RetainPersistentVolumeClaimRetentionPolicyType :
    PersistentVolumeClaimRetentionPolicyType := "Retain"

/-- The claims are deleted. -/
def DeletePersistentVolumeClaimRetentionPolicyType :
    PersistentVolumeClaimRetentionPolicyType := "Delete"

/-- The type `intstr.IntOrString` of the API machinery: written as a number
or as a string, and read back from either. -/
inductive IntOrString where
  | int (v : GoInt32) : IntOrString
  | str (s : String) : IntOrString

/-- The document of an `IntOrString`. -/
def IntOrString.marshal : IntOrString → Json
  | IntOrString.int v => Json.num v.val
  | IntOrString.str s => Json.str s

/-- Read an `IntOrString`: a string document gives the string form, a number
within `int32` the integer form. -/
def IntOrString.unmarshal (_cur : IntOrString) : Json → Except String IntOrString
  | Json.str s => Except.ok (IntOrString.str s)
  | Json.num n =>
    if h : -2147483648 ≤ n ∧ n ≤ 2147483647 then Except.ok (IntOrString.int ⟨n, h⟩)
    else Except.error "number out of range for int32"
  | _ => Except.error "cannot unmarshal into IntOrString"

/-- The zero value of `IntOrString`. -/
def IntOrString.zero : IntOrString := IntOrString.int GoInt32.zero

/-- RollingUpdateStatefulSetStrategy carries the parameters of a rolling
update. -/
structure RollingUpdateStatefulSetStrategy where
  Partition : GoInt32
  MaxUnavailable : Option IntOrString

/-- The zero value of RollingUpdateStatefulSetStrategy. -/
def RollingUpdateStatefulSetStrategy.zero : RollingUpdateStatefulSetStrategy :=
  ⟨GoInt32.zero, none⟩

/-- The fields of RollingUpdateStatefulSetStrategy with their tags. -/
def RollingUpdateStatefulSetStrategy.fields (r : RollingUpdateStatefulSetStrategy) :
    List Field :=
  [ int32Field "partition" r.Partition,
    ptrField "maxUnvailable" (r.MaxUnavailable.map IntOrString.marshal) ]

/-- The document of a RollingUpdateStatefulSetStrategy. -/
def RollingUpdateStatefulSetStrategy.marshal (r : RollingUpdateStatefulSetStrategy) : Json :=
  Json.obj (emitAll r.fields)

/-- Store one member of a rolling-update document. -/
def RollingUpdateStatefulSetStrategy.setField (r : RollingUpdateStatefulSetStrategy)
    (k : String) (v : Json) : Except String RollingUpdateStatefulSetStrategy :=
  if k = (parseTag "partition").name then
    (unmarshalInt32 r.Partition v).map (fun x => { r with Partition := x })
  else if k = (parseTag "maxUnvailable").name then
    (unmarshalPtr IntOrString.unmarshal IntOrString.zero r.MaxUnavailable v).map
      (fun x => { r with MaxUnavailable := x })
  else Except.ok r

/-- Read a document into a RollingUpdateStatefulSetStrategy. -/
def RollingUpdateStatefulSetStrategy.unmarshal (cur : RollingUpdateStatefulSetStrategy) :
    Json → Except String RollingUpdateStatefulSetStrategy :=
  unmarshalStruct RollingUpdateStatefulSetStrategy.setField cur

/-- StatefulSetUpdateStrategy is the strategy used to perform updates.  The Go
field `Type` is named `Type_`. -/
structure StatefulSetUpdateStrategy where
  Type_ : StatefulSetUpdateStrategyType
  RollingUpdate : Option RollingUpdateStatefulSetStrategy

/-- The zero value of StatefulSetUpdateStrategy. -/
def StatefulSetUpdateStrategy.zero : StatefulSetUpdateStrategy := ⟨"", none⟩

/-- The fields of StatefulSetUpdateStrategy with their tags. -/
def StatefulSetUpdateStrategy.fields (u : StatefulSetUpdateStrategy) : List Field :=
  [ stringField "type" u.Type_,
    ptrField "rollingUpdate,,omitempty"
      (u.RollingUpdate.map RollingUpdateStatefulSetStrategy.marshal) ]

/-- The document of a StatefulSetUpdateStrategy. -/
def StatefulSetUpdateStrategy.marshal (u : StatefulSetUpdateStrategy) : Json :=
  Json.obj (emitAll u.fields)

/-- Store one member of an update-strategy document. -/
def StatefulSetUpdateStrategy.setField (u : StatefulSetUpdateStrategy)
    (k : String) (v : Json) : Except String StatefulSetUpdateStrategy :=
  if k = (parseTag "type").name then
    (unmarshalString u.Type_ v).map (fun x => { u with Type_ := x })
  else if k = (parseTag "rollingUpdate,,omitempty").name then
    (unmarshalPtr RollingUpdateStatefulSetStrategy.unmarshal
      RollingUpdateStatefulSetStrategy.zero u.RollingUpdate v).map
      (fun x => { u with RollingUpdate := x })
  else Except.ok u

/-- Read a document into a StatefulSetUpdateStrategy. -/
def StatefulSetUpdateStrategy.unmarshal (cur : StatefulSetUpdateStrategy) :
    Json → Except String StatefulSetUpdateStrategy :=
  unmarshalStruct StatefulSetUpdateStrategy.setField cur

/-- StatefulSetPersistentVolumeClaimRetentionPolicy describes the policy used
for the claims created from the volume claim templates. -/
structure StatefulSetPersistentVolumeClaimRetentionPolicy where
  WhenDeleted : PersistentVolumeClaimRetentionPolicyType
  WhenScaled : PersistentVolumeClaimRetentionPolicyType

/-- The zero value of StatefulSetPersistentVolumeClaimRetentionPolicy. -/
def StatefulSetPersistentVolumeClaimRetentionPolicy.zero :
    StatefulSetPersistentVolumeClaimRetentionPolicy := ⟨"", ""⟩

/-- The fields of StatefulSetPersistentVolumeClaimRetentionPolicy with their
tags. -/
def StatefulSetPersistentVolumeClaimRetentionPolicy.fields
    (p : StatefulSetPersistentVolumeClaimRetentionPolicy) : List Field :=
  [ stringField "whenDeleted,omitempty" p.WhenDeleted,
    stringField "whenScaled,omitempty" p.WhenScaled ]

/-- The document of a StatefulSetPersistentVolumeClaimRetentionPolicy. -/
def StatefulSetPersistentVolumeClaimRetentionPolicy.marshal
    (p : StatefulSetPersistentVolumeClaimRetentionPolicy) : Json :=
  Json.obj (emitAll p.fields)

/-- Store one member of a retention-policy document. -/
def StatefulSetPersistentVolumeClaimRetentionPolicy.setField
    (p : StatefulSetPersistentVolumeClaimRetentionPolicy) (k : String) (v : Json) :
    Except String StatefulSetPersistentVolumeClaimRetentionPolicy :=
  if k = (parseTag "whenDeleted,omitempty").name then
    (unmarshalString p.WhenDeleted v).map (fun x => { p with WhenDeleted := x })
  else if k = (parseTag "whenScaled,omitempty").name then
    (unmarshalString p.WhenScaled v).map (fun x => { p with WhenScaled := x })
  else Except.ok p

/-- Read a document into a StatefulSetPersistentVolumeClaimRetentionPolicy. -/
def StatefulSetPersistentVolumeClaimRetentionPolicy.unmarshal
    (cur : StatefulSetPersistentVolumeClaimRetentionPolicy) :
    Json → Except String StatefulSetPersistentVolumeClaimRetentionPolicy :=
  unmarshalStruct StatefulSetPersistentVolumeClaimRetentionPolicy.setField cur

/-- StatefulSetConditionType describes the condition types: a Go string
type. -/
abbrev StatefulSetConditionType := String

/-- The type `api.ConditionStatus` of the core API: a Go string type. -/
abbrev ConditionStatus := String

/-- The type `metav1.Time` of the API machinery: an instant, held as its date
and its clock time in UTC together with the nanoseconds within the second.
The location of a Go time is not modelled. -/
structure Time where
  year : Int
  month : Nat
  day : Nat
  hour : Nat
  minute : Nat
  second : Nat
  nanosecond : Nat
deriving DecidableEq, Repr

/-- The zero time: midnight of January 1 of the year 1, UTC. -/
def Time.zero : Time := ⟨1, 1, 1, 0, 0, 0, 0⟩

/-- Whether a year is a leap year. -/
def isLeap (year : Int) : Bool :=
  decide (year % 4 = 0) && (decide (year % 100 ≠ 0) || decide (year % 400 = 0))

/-- The number of days of a month of a year. -/
def daysIn (month : Nat) (year : Int) : Nat :=
  if month = 2 then (if isLeap year then 29 else 28)
  else if month = 4 ∨ month = 6 ∨ month = 9 ∨ month = 11 then 30
  else 31

/-- The records that stand for an instant: a day that exists and a clock time
within the day. -/
def Time.valid (t : Time) : Prop :=
  1 ≤ t.month ∧ t.month ≤ 12 ∧ 1 ≤ t.day ∧ t.day ≤ daysIn t.month t.year ∧
    t.hour ≤ 23 ∧ t.minute ≤ 59 ∧ t.second ≤ 59 ∧ t.nanosecond ≤ 999999999

instance (t : Time) : Decidable t.valid := by
  unfold Time.valid
  infer_instance

/-- The days from January 1, 1970 to a date. -/
def daysFromCivil (year : Int) (month day : Nat) : Int :=
  let y : Int := if month ≤ 2 then year - 1 else year
  let era : Int := y.fdiv 400
  let yoe : Int := y - era * 400
  let mp : Int := if month > 2 then (month : Int) - 3 else (month : Int) + 9
  let doy : Int := (153 * mp + 2).fdiv 5 + (day : Int) - 1
  let doe : Int := yoe * 365 + yoe.fdiv 4 - yoe.fdiv 100 + doy
  era * 146097 + doe - 719468

/-- The date that lies a number of days after January 1, 1970. -/
def civilFromDays (days : Int) : Int × Nat × Nat :=
  let z : Int := days + 719468
  let era : Int := z.fdiv 146097
  let doe : Int := z - era * 146097
  let yoe : Int := (doe - doe.fdiv 1460 + doe.fdiv 36524 - doe.fdiv 146096).fdiv 365
  let doy : Int := doe - (365 * yoe + yoe.fdiv 4 - yoe.fdiv 100)
  let mp : Int := (5 * doy + 2).fdiv 153
  let d : Int := doy - (153 * mp + 2).fdiv 5 + 1
  let m : Int := if mp < 10 then mp + 3 else mp - 9
  let y : Int := yoe + era * 400
  (if m ≤ 2 then y + 1 else y, m.toNat, d.toNat)

/-- The instant a number of seconds after a time. -/
def Time.addSec (t : Time) (d : Int) : Time :=
  let total : Int := daysFromCivil t.year t.month t.day * 86400
    + (t.hour : Int) * 3600 + (t.minute : Int) * 60 + (t.second : Int) + d
  let rem : Nat := (total.fmod 86400).toNat
  match civilFromDays (total.fdiv 86400) with
  | (y, m, dd) => ⟨y, m, dd, rem / 3600, rem % 3600 / 60, rem % 60, t.nanosecond⟩

/-- The decimal digit for the last digit of a number. -/
def digit (n : Nat) : Char := Nat.digitChar (n % 10)

/-- A number in decimal, with a sign when negative and zeros in front up to a
width. -/
def appendInt (x : Int) (width : Nat) : List Char :=
  (if x < 0 then ['-'] else []) ++
    (if width = 2 ∧ x.natAbs < 100 then [digit (x.natAbs / 10), digit x.natAbs]
     else if width = 4 ∧ x.natAbs < 10000 then
       [digit (x.natAbs / 1000), digit (x.natAbs / 100), digit (x.natAbs / 10), digit x.natAbs]
     else
       List.replicate (width - (Nat.toDigits 10 x.natAbs).length) '0'
         ++ Nat.toDigits 10 x.natAbs)

/-- A time in the layout `2006-01-02T15:04:05Z07:00` of RFC 3339, in UTC: the
nanoseconds are not written. -/
def formatRFC3339 (t : Time) : List Char :=
  appendInt t.year 4 ++ '-' :: appendInt t.month 2 ++ '-' :: appendInt t.day 2 ++
    'T' :: appendInt t.hour 2 ++ ':' :: appendInt t.minute 2 ++ ':' :: appendInt t.second 2
    ++ ['Z']

/-- The number a run of decimal digits stands for, after the digits read so
far; none when a character is not a digit. -/
def digitsValue : Nat → List Char → Option Nat
  | acc, [] => some acc
  | acc, c :: cs => if c.isDigit then digitsValue (acc * 10 + (c.toNat - 48)) cs else none

/-- A run of decimal digits read as a number between two bounds. -/
def parseUint (s : List Char) (min max : Nat) : Option Nat :=
  match digitsValue 0 s with
  | none => none
  | some x => if x < min ∨ max < x then none else some x

/-- The nanoseconds a run of digits after the decimal point stands for: the
first nine digits count. -/
def parseNanoseconds (ds : List Char) : Nat :=
  match digitsValue 0 (ds.take 9) with
  | some x => x * 10 ^ (9 - (ds.take 9).length)
  | none => 0

/-- The fractional second in front of the zone, when there is one, with what
follows it. -/
def parseFraction : List Char → Nat × List Char
  | '.' :: c :: cs =>
    if c.isDigit then
      (parseNanoseconds ((c :: cs).takeWhile Char.isDigit), (c :: cs).dropWhile Char.isDigit)
    else (0, '.' :: c :: cs)
  | s => (0, s)

/-- The zone that ends a time: `Z`, or an offset `+hh:mm` or `-hh:mm`, which is
taken off the time to give the instant in UTC. -/
def parseZone (t : Time) : List Char → Option Time
  | ['Z'] => some t
  | [sign, h1, h2, colon, m1, m2] =>
    (parseUint [h1, h2] 0 23).bind fun hr =>
    (parseUint [m1, m2] 0 59).bind fun mm =>
    if (sign = '-' ∨ sign = '+') ∧ colon = ':' then
      some (t.addSec (if sign = '-' then ((hr * 60 + mm) * 60 : Nat) else -((hr * 60 + mm) * 60 : Nat)))
    else none
  | _ => none

/-- Read a time written in the layout of RFC 3339: the date, `T`, the clock
time, an optional fractional second, and the zone.  The few spellings outside
RFC 3339 that the Go library also reads (an hour of one digit, a comma in
front of the fraction) are refused. -/
def parseRFC3339 : List Char → Option Time
  | y1 :: y2 :: y3 :: y4 :: c1 :: m1 :: m2 :: c2 :: d1 :: d2 :: c3 :: h1 :: h2 :: c4 ::
      n1 :: n2 :: c5 :: s1 :: s2 :: rest =>
    (parseUint [y1, y2, y3, y4] 0 9999).bind fun year =>
    (parseUint [m1, m2] 1 12).bind fun month =>
    (parseUint [d1, d2] 1 (daysIn month year)).bind fun day =>
    (parseUint [h1, h2] 0 23).bind fun hour =>
    (parseUint [n1, n2] 0 59).bind fun minute =>
    (parseUint [s1, s2] 0 59).bind fun second =>
    if c1 = '-' ∧ c2 = '-' ∧ c3 = 'T' ∧ c4 = ':' ∧ c5 = ':' then
      parseZone ⟨year, month, day, hour, minute, second, (parseFraction rest).1⟩
        (parseFraction rest).2
    else none
  | _ => none

/-- The times that come back as they were written: an instant of whole
seconds, of a year from 0 to 9999. -/
def Time.wholeSeconds (t : Time) : Prop :=
  t.valid ∧ 0 ≤ t.year ∧ t.year ≤ 9999 ∧ t.nanosecond = 0

instance (t : Time) : Decidable t.wholeSeconds := by
  unfold Time.wholeSeconds
  infer_instance

/-- The document of a `Time`: the zero time is written `null`, any other time
as the string of its RFC 3339 text. -/
def Time.marshal (t : Time) : Json :=
  if t = Time.zero then Json.null else Json.str (String.mk (formatRFC3339 t))

/-- Read a `Time`: `null` gives the zero time, a string is parsed as RFC 3339
text, and anything else is a type error. -/
def Time.unmarshal (_cur : Time) : Json → Except String Time
  | Json.null => Except.ok Time.zero
  | Json.str s =>
    match parseRFC3339 s.data with
    | some t => Except.ok t
    | none => Except.error "cannot parse as RFC 3339 time"
  | _ => Except.error "cannot unmarshal into Time"

/-- StatefulSetCondition describes the state of a statefulset at a certain
point.  The Go field `Type` is named `Type_`. -/
structure StatefulSetCondition where
  Type_ : StatefulSetConditionType
  Status : ConditionStatus
  LastTransitionTime : Time
  Reason : String
  Message : String

/-- The zero value of StatefulSetCondition. -/
def StatefulSetCondition.zero : StatefulSetCondition := ⟨"", "", Time.zero, "", ""⟩

/-- The fields of StatefulSetCondition with their tags. -/
def StatefulSetCondition.fields (c : StatefulSetCondition) : List Field :=
  [ stringField "type" c.Type_,
    stringField "status" c.Status,
    structField "lastTransitionTime" (Time.marshal c.LastTransitionTime),
    stringField "reason" c.Reason,
    stringField "message" c.Message ]

/-- The document of a StatefulSetCondition. -/
def StatefulSetCondition.marshal (c : StatefulSetCondition) : Json :=
  Json.obj (emitAll c.fields)

/-- Store one member of a condition document. -/
def StatefulSetCondition.setField (c : StatefulSetCondition) (k : String) (v : Json) :
    Except String StatefulSetCondition :=
  if k = (parseTag "type").name then
    (unmarshalString c.Type_ v).map (fun x => { c with Type_ := x })
  else if k = (parseTag "status").name then
    (unmarshalString c.Status v).map (fun x => { c with Status := x })
  else if k = (parseTag "lastTransitionTime").name then
    (Time.unmarshal c.LastTransitionTime v).map (fun x => { c with LastTransitionTime := x })
  else if k = (parseTag "reason").name then
    (unmarshalString c.Reason v).map (fun x => { c with Reason := x })
  else if k = (parseTag "message").name then
    (unmarshalString c.Message v).map (fun x => { c with Message := x })
  else Except.ok c

/-- Read a document into a StatefulSetCondition. -/
def StatefulSetCondition.unmarshal (cur : StatefulSetCondition) :
    Json → Except String StatefulSetCondition :=
  unmarshalStruct StatefulSetCondition.setField cur

/-! ## p08serverset_types.go -/

/-- P08ServerSetSpec defines the desired state of P08ServerSet. -/
structure P08ServerSetSpec where
  Replicas : GoInt32
  Selector : Option Object
  Template : Object
  VolumeClaimTemplates : List Object
  ServiceName : String
  PodManagementPolicy : PodManagementPolicyType
  UpdateStrategy : StatefulSetUpdateStrategy
  RevisionHistoryLimit : Option GoInt32
  MinReadySeconds : GoInt32
  PersistentVolumeClaimRetentionPolicy : Option StatefulSetPersistentVolumeClaimRetentionPolicy

/-- The zero value of P08ServerSetSpec: every field unset. -/
def P08ServerSetSpec.zero : P08ServerSetSpec :=
  { Replicas := GoInt32.zero
    Selector := none
    Template := []
    VolumeClaimTemplates := []
    ServiceName := ""
    PodManagementPolicy := ""
    UpdateStrategy := StatefulSetUpdateStrategy.zero
    RevisionHistoryLimit := none
    MinReadySeconds := GoInt32.zero
    PersistentVolumeClaimRetentionPolicy := none }

/-- The fields of P08ServerSetSpec with their tags. -/
def P08ServerSetSpec.fields (s : P08ServerSetSpec) : List Field :=
  [ int32Field "replicas,omitempty" s.Replicas,
    ptrField "selector,omitempty" (s.Selector.map Json.obj),
    structField "template" (Json.obj s.Template),
    sliceField "volumeClaimTemplates,omitempty" (s.VolumeClaimTemplates.map Json.obj),
    stringField "serviceName" s.ServiceName,
    stringField "podManagementPolicy,omitempty" s.PodManagementPolicy,
    structField "updateStrategy" s.UpdateStrategy.marshal,
    ptrField "revisionHistoryLimit" (s.RevisionHistoryLimit.map marshalInt32),
    int32Field "minReadySeconds,omitempty" s.MinReadySeconds,
    ptrField "persistentVolumeClaimRetentionPolicy,omitempty"
      (s.PersistentVolumeClaimRetentionPolicy.map
        StatefulSetPersistentVolumeClaimRetentionPolicy.marshal) ]

/-- The members of the document of a P08ServerSetSpec. -/
def P08ServerSetSpec.members (s : P08ServerSetSpec) : Object := emitAll s.fields

/-- The document of a P08ServerSetSpec. -/
def P08ServerSetSpec.marshal (s : P08ServerSetSpec) : Json := Json.obj s.members

/-- Store one member of a spec document. -/
def P08ServerSetSpec.setField (s : P08ServerSetSpec) (k : String) (v : Json) :
    Except String P08ServerSetSpec :=
  if k = (parseTag "replicas,omitempty").name then
    (unmarshalInt32 s.Replicas v).map (fun x => { s with Replicas := x })
  else if k = (parseTag "selector,omitempty").name then
    (unmarshalPtr unmarshalExternal [] s.Selector v).map (fun x => { s with Selector := x })
  else if k = (parseTag "template").name then
    (unmarshalExternal s.Template v).map (fun x => { s with Template := x })
  else if k = (parseTag "volumeClaimTemplates,omitempty").name then
    (unmarshalSlice unmarshalExternal [] v).map (fun x => { s with VolumeClaimTemplates := x })
  else if k = (parseTag "serviceName").name then
    (unmarshalString s.ServiceName v).map (fun x => { s with ServiceName := x })
  else if k = (parseTag "podManagementPolicy,omitempty").name then
    (unmarshalString s.PodManagementPolicy v).map (fun x => { s with PodManagementPolicy := x })
  else if k = (parseTag "updateStrategy").name then
    (StatefulSetUpdateStrategy.unmarshal s.UpdateStrategy v).map
      (fun x => { s with UpdateStrategy := x })
  else if k = (parseTag "revisionHistoryLimit").name then
    (unmarshalPtr unmarshalInt32 GoInt32.zero s.RevisionHistoryLimit v).map
      (fun x => { s with RevisionHistoryLimit := x })
  else if k = (parseTag "minReadySeconds,omitempty").name then
    (unmarshalInt32 s.MinReadySeconds v).map (fun x => { s with MinReadySeconds := x })
  else if k = (parseTag "persistentVolumeClaimRetentionPolicy,omitempty").name then
    (unmarshalPtr StatefulSetPersistentVolumeClaimRetentionPolicy.unmarshal
      StatefulSetPersistentVolumeClaimRetentionPolicy.zero
      s.PersistentVolumeClaimRetentionPolicy v).map
      (fun x => { s with PersistentVolumeClaimRetentionPolicy := x })
  else Except.ok s

/-- Read a document into a P08ServerSetSpec. -/
def P08ServerSetSpec.unmarshal (cur : P08ServerSetSpec) :
    Json → Except String P08ServerSetSpec :=
  unmarshalStruct P08ServerSetSpec.setField cur

/-- P08ServerSetStatus defines the observed state of P08ServerSet. -/
structure P08ServerSetStatus where
  ObservedGeneration : GoInt64
  Replicas : GoInt32
  ReadyReplicas : GoInt32
  CurrentReplicas : GoInt32
  UpdatedReplicas : GoInt32
  CurrentRevision : String
  UpdateRevision : String
  CollisionCount : Option GoInt32
  Conditions : List StatefulSetCondition
  AvailableReplicas : GoInt32
  LabelSelector : String

/-- The zero value of P08ServerSetStatus. -/
def P08ServerSetStatus.zero : P08ServerSetStatus :=
  { ObservedGeneration := GoInt64.zero
    Replicas := GoInt32.zero
    ReadyReplicas := GoInt32.zero
    CurrentReplicas := GoInt32.zero
    UpdatedReplicas := GoInt32.zero
    CurrentRevision := ""
    UpdateRevision := ""
    CollisionCount := none
    Conditions := []
    AvailableReplicas := GoInt32.zero
    LabelSelector := "" }

/-- The fields of P08ServerSetStatus with their tags. -/
def P08ServerSetStatus.fields (s : P08ServerSetStatus) : List Field :=
  [ int64Field "observedGeneration,omitempty" s.ObservedGeneration,
    int32Field "replicas" s.Replicas,
    int32Field "readyReplicas" s.ReadyReplicas,
    int32Field "currentReplicas" s.CurrentReplicas,
    int32Field "updatedReplicas" s.UpdatedReplicas,
    stringField "currentRevision" s.CurrentRevision,
    stringField "updateRevision" s.UpdateRevision,
    ptrField "collisionCount,omitempty" (s.CollisionCount.map marshalInt32),
    sliceField "conditions" (s.Conditions.map StatefulSetCondition.marshal),
    int32Field "avaliableReplicas,omitempty" s.AvailableReplicas,
    stringField "labelSelector,omitempty" s.LabelSelector ]

/-- The members of the document of a P08ServerSetStatus. -/
def P08ServerSetStatus.members (s : P08ServerSetStatus) : Object := emitAll s.fields

/-- The document of a P08ServerSetStatus. -/
def P08ServerSetStatus.marshal (s : P08ServerSetStatus) : Json := Json.obj s.members

/-- Store one member of a status document. -/
def P08ServerSetStatus.setField (s : P08ServerSetStatus) (k : String) (v : Json) :
    Except String P08ServerSetStatus :=
  if k = (parseTag "observedGeneration,omitempty").name then
    (unmarshalInt64 s.ObservedGeneration v).map (fun x => { s with ObservedGeneration := x })
  else if k = (parseTag "replicas").name then
    (unmarshalInt32 s.Replicas v).map (fun x => { s with Replicas := x })
  else if k = (parseTag "readyReplicas").name then
    (unmarshalInt32 s.ReadyReplicas v).map (fun x => { s with ReadyReplicas := x })
  else if k = (parseTag "currentReplicas").name then
    (unmarshalInt32 s.CurrentReplicas v).map (fun x => { s with CurrentReplicas := x })
  else if k = (parseTag "updatedReplicas").name then
    (unmarshalInt32 s.UpdatedReplicas v).map (fun x => { s with UpdatedReplicas := x })
  else if k = (parseTag "currentRevision").name then
    (unmarshalString s.CurrentRevision v).map (fun x => { s with CurrentRevision := x })
  else if k = (parseTag "updateRevision").name then
    (unmarshalString s.UpdateRevision v).map (fun x => { s with UpdateRevision := x })
  else if k = (parseTag "collisionCount,omitempty").name then
    (unmarshalPtr unmarshalInt32 GoInt32.zero s.CollisionCount v).map
      (fun x => { s with CollisionCount := x })
  else if k = (parseTag "conditions").name then
    (unmarshalSlice StatefulSetCondition.unmarshal StatefulSetCondition.zero v).map
      (fun x => { s with Conditions := x })
  else if k = (parseTag "avaliableReplicas,omitempty").name then
    (unmarshalInt32 s.AvailableReplicas v).map (fun x => { s with AvailableReplicas := x })
  else if k = (parseTag "labelSelector,omitempty").name then
    (unmarshalString s.LabelSelector v).map (fun x => { s with LabelSelector := x })
  else Except.ok s

/-- Read a document into a P08ServerSetStatus. -/
def P08ServerSetStatus.unmarshal (cur : P08ServerSetStatus) :
    Json → Except String P08ServerSetStatus :=
  unmarshalStruct P08ServerSetStatus.setField cur

/-- The type `metav1.TypeMeta` of the API machinery, embedded in the root
object with `json:",inline"`: its two fields are written among the members of
the root object, under their own tags `kind,omitempty` and
`apiVersion,omitempty`. -/
structure TypeMeta where
  Kind : String
  APIVersion : String

/-- P08ServerSet is the Schema for the p08serversets API. -/
structure P08ServerSet where
  TypeMeta : TypeMeta
  ObjectMeta : Object
  Spec : P08ServerSetSpec
  Status : P08ServerSetStatus

/-- The zero value of P08ServerSet. -/
def P08ServerSet.zero : P08ServerSet :=
  ⟨⟨"", ""⟩, [], P08ServerSetSpec.zero, P08ServerSetStatus.zero⟩

/-- The fields of P08ServerSet with their tags; the embedded TypeMeta
contributes its own two. -/
def P08ServerSet.fields (p : P08ServerSet) : List Field :=
  [ stringField "kind,omitempty" p.TypeMeta.Kind,
    stringField "apiVersion,omitempty" p.TypeMeta.APIVersion,
    structField "metadata,omitempty" (Json.obj p.ObjectMeta),
    structField "spec,omitempty" p.Spec.marshal,
    structField "status,omitempty" p.Status.marshal ]

/-- The document of a P08ServerSet. -/
def P08ServerSet.marshal (p : P08ServerSet) : Json := Json.obj (emitAll p.fields)

/-- Store one member of a P08ServerSet document. -/
def P08ServerSet.setField (p : P08ServerSet) (k : String) (v : Json) :
    Except String P08ServerSet :=
  if k = (parseTag "kind,omitempty").name then
    (unmarshalString p.TypeMeta.Kind v).map
      (fun x => { p with TypeMeta := { p.TypeMeta with Kind := x } })
  else if k = (parseTag "apiVersion,omitempty").name then
    (unmarshalString p.TypeMeta.APIVersion v).map
      (fun x => { p with TypeMeta := { p.TypeMeta with APIVersion := x } })
  else if k = (parseTag "metadata,omitempty").name then
    (unmarshalExternal p.ObjectMeta v).map (fun x => { p with ObjectMeta := x })
  else if k = (parseTag "spec,omitempty").name then
    (P08ServerSetSpec.unmarshal p.Spec v).map (fun x => { p with Spec := x })
  else if k = (parseTag "status,omitempty").name then
    (P08ServerSetStatus.unmarshal p.Status v).map (fun x => { p with Status := x })
  else Except.ok p

/-- Read a document into a fresh P08ServerSet. -/
def P08ServerSet.unmarshal (v : Json) : Except String P08ServerSet :=
  unmarshalStruct P08ServerSet.setField P08ServerSet.zero v

/-- The scenario of the specification: three replicas, ordered pod
management, a rolling update partitioned at ordinal one, and every other
field of the spec unset. -/
def exampleSpec : P08ServerSetSpec :=
  { P08ServerSetSpec.zero with
    Replicas := ⟨3, by decide⟩
    PodManagementPolicy := OrderedReadyPodManagement
    UpdateStrategy :=
      { Type_ := RollingUpdateStatefulSetStrategyType
        RollingUpdate := some { Partition := ⟨1, by decide⟩, MaxUnavailable := none } } }

/-- A condition whose last transition time has a part below the second. -/
def subSecondCondition : StatefulSetCondition :=
  { Type_ := "Ready"
    Status := "True"
    LastTransitionTime := ⟨2025, 1, 1, 0, 0, 0, 123456789⟩
    Reason := "Up"
    Message := "all pods up" }

/-- A P08ServerSet whose status holds that one condition and nothing else. -/
def subSecondSet : P08ServerSet :=
  { P08ServerSet.zero with
    Status := { P08ServerSetStatus.zero with Conditions := [subSecondCondition] } }

/-! ## Registration -/

/-- Modelled from the spec: the key of the type registry, which is "keyed by
group-version-kind". -/
structure GroupVersionKind where
  Group : String
  Version : String
  Kind : String
deriving DecidableEq, Repr

/-- Modelled from the spec: the "process-wide type registry keyed by
group-version-kind" behind `SchemeBuilder`, which is declared outside the two
source files.  An entry holds a key and the name of the Go type registered
under it. -/
abbrev Registry := List (GroupVersionKind × String)

/-- Modelled from the spec: adding one type to the registry.  A key that is
registered already is left alone, so that registering again "does not produce
duplicate entries or raise an error". -/
def Registry.add (r : Registry) (k : GroupVersionKind) (goType : String) : Registry :=
  if k ∈ r.map Prod.fst then r else r ++ [(k, goType)]

/-- Modelled from the spec: the registration operation, which "adds the root
Resource and its List type" to the registry.  It stands for the call
`SchemeBuilder.Register(&P08ServerSet{}, &P08ServerSetList{})` of `init`; the
group and the version belong to `SchemeBuilder` and are parameters here. -/
def init (group version : String) (r : Registry) : Registry :=
  (r.add ⟨group, version, "P08ServerSet"⟩ "P08ServerSet").add
    ⟨group, version, "P08ServerSetList"⟩ "P08ServerSetList"

/-! ## Struct tags, read

Every tag of the two source files, as `parseTag` reads it. -/

@[simp] theorem parseTag_partition :
    parseTag "partition" = ⟨"partition", false⟩ := by decide

@[simp] theorem parseTag_maxUnvailable :
    parseTag "maxUnvailable" = ⟨"maxUnvailable", false⟩ := by decide

@[simp] theorem parseTag_type :
    parseTag "type" = ⟨"type", false⟩ := by decide

@[simp] theorem parseTag_rollingUpdate_omitempty :
    parseTag "rollingUpdate,,omitempty" = ⟨"rollingUpdate", true⟩ := by decide

@[simp] theorem parseTag_whenDeleted_omitempty :
    parseTag "whenDeleted,omitempty" = ⟨"whenDeleted", true⟩ := by decide

@[simp] theorem parseTag_whenScaled_omitempty :
    parseTag "whenScaled,omitempty" = ⟨"whenScaled", true⟩ := by decide

@[simp] theorem parseTag_status :
    parseTag "status" = ⟨"status", false⟩ := by decide

@[simp] theorem parseTag_lastTransitionTime :
    parseTag "lastTransitionTime" = ⟨"lastTransitionTime", false⟩ := by decide

@[simp] theorem parseTag_reason :
    parseTag "reason" = ⟨"reason", false⟩ := by decide

@[simp] theorem parseTag_message :
    parseTag "message" = ⟨"message", false⟩ := by decide

@[simp] theorem parseTag_replicas_omitempty :
    parseTag "replicas,omitempty" = ⟨"replicas", true⟩ := by decide

@[simp] theorem parseTag_selector_omitempty :
    parseTag "selector,omitempty" = ⟨"selector", true⟩ := by decide

@[simp] theorem parseTag_template :
    parseTag "template" = ⟨"template", false⟩ := by decide

@[simp] theorem parseTag_volumeClaimTemplates_omitempty :
    parseTag "volumeClaimTemplates,omitempty" = ⟨"volumeClaimTemplates", true⟩ := by decide

@[simp] theorem parseTag_serviceName :
    parseTag "serviceName" = ⟨"serviceName", false⟩ := by decide

@[simp] theorem parseTag_podManagementPolicy_omitempty :
    parseTag "podManagementPolicy,omitempty" = ⟨"podManagementPolicy", true⟩ := by decide

@[simp] theorem parseTag_updateStrategy :
    parseTag "updateStrategy" = ⟨"updateStrategy", false⟩ := by decide

@[simp] theorem parseTag_revisionHistoryLimit :
    parseTag "revisionHistoryLimit" = ⟨"revisionHistoryLimit", false⟩ := by decide

@[simp] theorem parseTag_minReadySeconds_omitempty :
    parseTag "minReadySeconds,omitempty" = ⟨"minReadySeconds", true⟩ := by decide

@[simp] theorem parseTag_persistentVolumeClaimRetentionPolicy_omitempty :
    parseTag "persistentVolumeClaimRetentionPolicy,omitempty" = ⟨"persistentVolumeClaimRetentionPolicy", true⟩ := by decide

@[simp] theorem parseTag_observedGeneration_omitempty :
    parseTag "observedGeneration,omitempty" = ⟨"observedGeneration", true⟩ := by decide

@[simp] theorem parseTag_replicas :
    parseTag "replicas" = ⟨"replicas", false⟩ := by decide

@[simp] theorem parseTag_readyReplicas :
    parseTag "readyReplicas" = ⟨"readyReplicas", false⟩ := by decide

@[simp] theorem parseTag_currentReplicas :
    parseTag "currentReplicas" = ⟨"currentReplicas", false⟩ := by decide

@[simp] theorem parseTag_updatedReplicas :
    parseTag "updatedReplicas" = ⟨"updatedReplicas", false⟩ := by decide

@[simp] theorem parseTag_currentRevision :
    parseTag "currentRevision" = ⟨"currentRevision", false⟩ := by decide

@[simp] theorem parseTag_updateRevision :
    parseTag "updateRevision" = ⟨"updateRevision", false⟩ := by decide

@[simp] theorem parseTag_collisionCount_omitempty :
    parseTag "collisionCount,omitempty" = ⟨"collisionCount", true⟩ := by decide

@[simp] theorem parseTag_conditions :
    parseTag "conditions" = ⟨"conditions", false⟩ := by decide

@[simp] theorem parseTag_avaliableReplicas_omitempty :
    parseTag "avaliableReplicas,omitempty" = ⟨"avaliableReplicas", true⟩ := by decide

@[simp] theorem parseTag_labelSelector_omitempty :
    parseTag "labelSelector,omitempty" = ⟨"labelSelector", true⟩ := by decide

@[simp] theorem parseTag_kind_omitempty :
    parseTag "kind,omitempty" = ⟨"kind", true⟩ := by decide

@[simp] theorem parseTag_apiVersion_omitempty :
    parseTag "apiVersion,omitempty" = ⟨"apiVersion", true⟩ := by decide

@[simp] theorem parseTag_metadata_omitempty :
    parseTag "metadata,omitempty" = ⟨"metadata", true⟩ := by decide

@[simp] theorem parseTag_spec_omitempty :
    parseTag "spec,omitempty" = ⟨"spec", true⟩ := by decide

@[simp] theorem parseTag_status_omitempty :
    parseTag "status,omitempty" = ⟨"status", true⟩ := by decide

/-! ## Reading back what was written -/

@[simp] theorem unmarshalInt32_marshalInt32 (cur n : GoInt32) :
    unmarshalInt32 cur (marshalInt32 n) = Except.ok n := by
  obtain ⟨n, hn⟩ := n
  simp [unmarshalInt32, marshalInt32, hn]

theorem marshalInt32_ne_null (n : GoInt32) : marshalInt32 n ≠ Json.null := by
  simp [marshalInt32]

@[simp] theorem unmarshalInt64_val (cur n : GoInt64) :
    unmarshalInt64 cur (Json.num n.val) = Except.ok n := by
  obtain ⟨n, hn⟩ := n
  simp [unmarshalInt64, hn]

@[simp] theorem unmarshalString_str (cur s : String) :
    unmarshalString cur (Json.str s) = Except.ok s := rfl

@[simp] theorem unmarshalExternal_obj (cur o : Object) :
    unmarshalExternal cur (Json.obj o) = Except.ok o := rfl

/-- Reading the document of a pointer into a nil pointer gives the pointer
back, when the pointee is read back from its document and is never written
`null`. -/
theorem unmarshalPtr_map {α : Type} (dec : α → Json → Except String α) (zero : α)
    (enc : α → Json) (hn : ∀ a, enc a ≠ Json.null)
    (h : ∀ a, dec zero (enc a) = Except.ok a) (o : Option α) :
    unmarshalPtr dec zero none ((o.map enc).getD Json.null) = Except.ok o := by
  cases o with
  | none => rfl
  | some a =>
    have h1 := hn a
    have h2 := h a
    simp only [Option.map_some', Option.getD_some]
    unfold unmarshalPtr
    split
    · contradiction
    · simp [h2]

theorem unmarshalElems_map {α : Type} (dec : α → Json → Except String α) (zero : α)
    (enc : α → Json) (l : List α) (h : ∀ a ∈ l, dec zero (enc a) = Except.ok a) :
    unmarshalElems dec zero (l.map enc) = Except.ok l := by
  induction l with
  | nil => rfl
  | cons a l ih =>
    have ha := h a (List.mem_cons_self a l)
    have hl := ih (fun b hb => h b (List.mem_cons_of_mem a hb))
    simp [unmarshalElems, ha, hl]

/-- Reading the document of a slice gives the slice back, when each of its
elements is read back from its document. -/
theorem unmarshalSlice_map {α : Type} (dec : α → Json → Except String α) (zero : α)
    (enc : α → Json) (l : List α) (h : ∀ a ∈ l, dec zero (enc a) = Except.ok a) :
    unmarshalSlice dec zero (marshalSlice (l.map enc)) = Except.ok l := by
  cases l with
  | nil => rfl
  | cons a l =>
    have he := unmarshalElems_map dec zero enc (a :: l) h
    simp only [marshalSlice, List.map_cons, List.isEmpty_cons, Bool.false_eq_true, if_false,
      unmarshalSlice]
    exact he

theorem unmarshalObject_append {σ : Type} (set : σ → String → Json → Except String σ)
    (s s1 : σ) (a b : Object) (h : unmarshalObject set s a = Except.ok s1) :
    unmarshalObject set s (a ++ b) = unmarshalObject set s1 b := by
  induction a generalizing s with
  | nil => simp [unmarshalObject] at h; subst h; rfl
  | cons kv a ih =>
    obtain ⟨k, v⟩ := kv
    simp only [List.cons_append, unmarshalObject] at h ⊢
    cases hs : set s k v with
    | error e => simp [hs] at h
    | ok s2 =>
      simp only [hs] at h ⊢
      exact ih s2 h

/-- One field of the round trip: the member written for a field, read into a
struct `s`, gives `s1`, provided storing the field's document gives `s1` and
an omitted field already has its value in `s`. -/
theorem unmarshalObject_emitAll_cons {σ : Type} (set : σ → String → Json → Except String σ)
    (s s1 : σ) (f : Field) (fs : List Field)
    (hset : set s (parseTag f.tag).name f.value = Except.ok s1)
    (hempty : (parseTag f.tag).omitEmpty = true → f.empty = true → s1 = s) :
    unmarshalObject set s (emitAll (f :: fs)) = unmarshalObject set s1 (emitAll fs) := by
  simp only [emitAll]
  apply unmarshalObject_append
  unfold Field.emit
  by_cases hc : ((parseTag f.tag).omitEmpty && f.empty) = true
  · simp only [hc, if_true, unmarshalObject]
    simp only [Bool.and_eq_true] at hc
    rw [hempty hc.1 hc.2]
  · simp only [hc, unmarshalObject, hset]

theorem IntOrString.marshal_ne_null (a : IntOrString) : a.marshal ≠ Json.null := by
  cases a <;> simp [IntOrString.marshal]

theorem roundtrip_IntOrString (cur a : IntOrString) :
    IntOrString.unmarshal cur a.marshal = Except.ok a := by
  cases a with
  | int v => obtain ⟨n, hn⟩ := v; simp [IntOrString.marshal, IntOrString.unmarshal, hn]
  | str s => rfl

theorem digitChar_isDigit (d : Nat) (h : d < 10) :
    (Nat.digitChar d).isDigit = true ∧ (Nat.digitChar d).toNat - 48 = d := by
  interval_cases d <;> exact ⟨rfl, rfl⟩

theorem digitsValue_digit (acc n : Nat) (cs : List Char) :
    digitsValue acc (digit n :: cs) = digitsValue (acc * 10 + n % 10) cs := by
  have h := digitChar_isDigit (n % 10) (Nat.mod_lt n (by decide))
  simp only [digitsValue, digit, h.1, h.2, if_true]

theorem parseUint_two (n lo hi : Nat) (h : n < 100) (hlo : lo ≤ n) (hhi : n ≤ hi) :
    parseUint [digit (n / 10), digit n] lo hi = some n := by
  have e : (0 * 10 + n / 10 % 10) * 10 + n % 10 = n := by omega
  have hv : digitsValue 0 [digit (n / 10), digit n] = some n := by
    rw [digitsValue_digit, digitsValue_digit, e]
    rfl
  unfold parseUint
  rw [hv]
  have hc : ¬ (n < lo ∨ hi < n) := by omega
  exact if_neg hc

theorem parseUint_four (n lo hi : Nat) (h : n < 10000) (hlo : lo ≤ n) (hhi : n ≤ hi) :
    parseUint [digit (n / 1000), digit (n / 100), digit (n / 10), digit n] lo hi = some n := by
  have e : (((0 * 10 + n / 1000 % 10) * 10 + n / 100 % 10) * 10 + n / 10 % 10) * 10 + n % 10
      = n := by omega
  have hv : digitsValue 0 [digit (n / 1000), digit (n / 100), digit (n / 10), digit n]
      = some n := by
    rw [digitsValue_digit, digitsValue_digit, digitsValue_digit, digitsValue_digit, e]
    rfl
  unfold parseUint
  rw [hv]
  have hc : ¬ (n < lo ∨ hi < n) := by omega
  exact if_neg hc

theorem appendInt_two (n : Nat) (h : n < 100) :
    appendInt (n : Int) 2 = [digit (n / 10), digit n] := by
  have h0 : ¬ ((n : Int) < 0) := by omega
  unfold appendInt
  simp only [h0, if_false, Int.natAbs_ofNat, h, and_self, if_true, List.nil_append]

theorem appendInt_four (n : Nat) (h : n < 10000) :
    appendInt (n : Int) 4 = [digit (n / 1000), digit (n / 100), digit (n / 10), digit n] := by
  have h0 : ¬ ((n : Int) < 0) := by omega
  have h4 : ¬ ((4 : Nat) = 2) := by decide
  unfold appendInt
  simp only [h0, if_false, Int.natAbs_ofNat, h, h4, false_and, and_self, if_true,
    List.nil_append]

theorem parseFraction_Z : parseFraction ['Z'] = (0, ['Z']) := rfl

/-- A time of the years 0 to 9999 is read back from its text as the same
instant without its nanoseconds. -/
theorem parseRFC3339_formatRFC3339 (t : Time) (hv : t.valid) (h0 : 0 ≤ t.year)
    (h9 : t.year ≤ 9999) :
    parseRFC3339 (formatRFC3339 t) = some { t with nanosecond := 0 } := by
  obtain ⟨year, month, day, hour, minute, second, nano⟩ := t
  obtain ⟨hm1, hm2, hd1, hd2, hh, hmi, hs, -⟩ := hv
  simp only at hm1 hm2 hd1 hd2 hh hmi hs h0 h9
  obtain ⟨y, rfl⟩ := Int.eq_ofNat_of_zero_le h0
  have hy : y < 10000 := by omega
  have hd3 : day ≤ 31 := by
    refine le_trans hd2 ?_
    unfold daysIn
    split_ifs <;> decide
  simp only [formatRFC3339, appendInt_four y hy, appendInt_two month (by omega),
    appendInt_two day (by omega), appendInt_two hour (by omega),
    appendInt_two minute (by omega), appendInt_two second (by omega),
    List.cons_append, List.nil_append, parseRFC3339,
    parseUint_four y 0 9999 hy (by omega) (by omega),
    parseUint_two month 1 12 (by omega) hm1 hm2,
    parseUint_two day 1 (daysIn month y) (by omega) hd1 hd2,
    parseUint_two hour 0 23 (by omega) (by omega) hh,
    parseUint_two minute 0 59 (by omega) (by omega) hmi,
    parseUint_two second 0 59 (by omega) (by omega) hs,
    Option.some_bind, parseFraction_Z, parseZone, and_self, if_true]

/-- A time of whole seconds is read back from its document. -/
theorem roundtrip_Time (cur t : Time) (h : t.wholeSeconds) :
    Time.unmarshal cur (Time.marshal t) = Except.ok t := by
  obtain ⟨hv, h0, h9, hn⟩ := h
  unfold Time.marshal
  by_cases hz : t = Time.zero
  · simp only [hz, if_true, Time.unmarshal]
  · have hp := parseRFC3339_formatRFC3339 t hv h0 h9
    have ht : ({ t with nanosecond := 0 } : Time) = t := by
      obtain ⟨y, mo, d, hh, mi, sec, n⟩ := t
      simp only at hn
      subst hn
      rfl
    simp only [hz, if_false, Time.unmarshal, hp, ht]

theorem roundtrip_RollingUpdateStatefulSetStrategy (r : RollingUpdateStatefulSetStrategy) :
    RollingUpdateStatefulSetStrategy.unmarshal RollingUpdateStatefulSetStrategy.zero r.marshal
      = Except.ok r := by
  obtain ⟨p, m⟩ := r
  have hm := unmarshalPtr_map IntOrString.unmarshal IntOrString.zero IntOrString.marshal
    IntOrString.marshal_ne_null (roundtrip_IntOrString _) m
  simp [RollingUpdateStatefulSetStrategy.unmarshal, RollingUpdateStatefulSetStrategy.marshal,
    RollingUpdateStatefulSetStrategy.fields, unmarshalStruct, emitAll, Field.emit, int32Field,
    ptrField, unmarshalObject, RollingUpdateStatefulSetStrategy.setField,
    RollingUpdateStatefulSetStrategy.zero, hm, Except.map]

theorem roundtrip_StatefulSetUpdateStrategy (u : StatefulSetUpdateStrategy) :
    StatefulSetUpdateStrategy.unmarshal StatefulSetUpdateStrategy.zero u.marshal
      = Except.ok u := by
  obtain ⟨t, r⟩ := u
  have hr := unmarshalPtr_map RollingUpdateStatefulSetStrategy.unmarshal
    RollingUpdateStatefulSetStrategy.zero RollingUpdateStatefulSetStrategy.marshal
    (by intro a; simp [RollingUpdateStatefulSetStrategy.marshal])
    roundtrip_RollingUpdateStatefulSetStrategy r
  simp only [StatefulSetUpdateStrategy.unmarshal, StatefulSetUpdateStrategy.marshal,
    StatefulSetUpdateStrategy.fields, unmarshalStruct, emitAll, Field.emit, stringField,
    ptrField, StatefulSetUpdateStrategy.zero, parseTag_type, parseTag_rollingUpdate_omitempty]
  cases r with
  | none => simp [unmarshalObject, StatefulSetUpdateStrategy.setField, Except.map]
  | some r =>
    simp only [Option.map_some', Option.getD_some] at hr
    simp [unmarshalObject, StatefulSetUpdateStrategy.setField, Except.map, hr]

theorem roundtrip_StatefulSetPersistentVolumeClaimRetentionPolicy
    (r : StatefulSetPersistentVolumeClaimRetentionPolicy) :
    StatefulSetPersistentVolumeClaimRetentionPolicy.unmarshal
      StatefulSetPersistentVolumeClaimRetentionPolicy.zero r.marshal = Except.ok r := by
  obtain ⟨d, s⟩ := r
  simp only [StatefulSetPersistentVolumeClaimRetentionPolicy.unmarshal,
    StatefulSetPersistentVolumeClaimRetentionPolicy.marshal,
    StatefulSetPersistentVolumeClaimRetentionPolicy.fields, unmarshalStruct, emitAll,
    Field.emit, stringField, StatefulSetPersistentVolumeClaimRetentionPolicy.zero,
    parseTag_whenDeleted_omitempty, parseTag_whenScaled_omitempty]
  by_cases h1 : d = "" <;> by_cases h2 : s = "" <;>
  simp [h1, h2, unmarshalObject, StatefulSetPersistentVolumeClaimRetentionPolicy.setField,
    Except.map]

theorem roundtrip_StatefulSetCondition (c : StatefulSetCondition)
    (h : c.LastTransitionTime.wholeSeconds) :
    StatefulSetCondition.unmarshal StatefulSetCondition.zero c.marshal = Except.ok c := by
  obtain ⟨t, s, l, r, m⟩ := c
  have hl := roundtrip_Time Time.zero l h
  simp [StatefulSetCondition.unmarshal, StatefulSetCondition.marshal,
    StatefulSetCondition.fields, unmarshalStruct, emitAll, Field.emit, stringField,
    structField, unmarshalObject, StatefulSetCondition.setField, StatefulSetCondition.zero,
    hl, Except.map]

theorem int32_eq_zero (n : GoInt32) (h : decide (n.val = 0) = true) : n = GoInt32.zero :=
  Subtype.ext (of_decide_eq_true h)

theorem int64_eq_zero (n : GoInt64) (h : decide (n.val = 0) = true) : n = GoInt64.zero :=
  Subtype.ext (of_decide_eq_true h)

theorem roundtrip_P08ServerSetSpec (s : P08ServerSetSpec) :
    P08ServerSetSpec.unmarshal P08ServerSetSpec.zero s.marshal = Except.ok s := by
  obtain ⟨r, sel, t, vct, sn, pmp, us, rhl, mrs, pol⟩ := s
  have hsel := unmarshalPtr_map unmarshalExternal [] Json.obj (by intro a; simp)
    (fun a => rfl) sel
  have hvct := unmarshalSlice_map unmarshalExternal [] Json.obj vct (fun a _ => rfl)
  have hus := roundtrip_StatefulSetUpdateStrategy us
  have hrhl := unmarshalPtr_map unmarshalInt32 GoInt32.zero marshalInt32
    marshalInt32_ne_null (unmarshalInt32_marshalInt32 _) rhl
  have hpol := unmarshalPtr_map StatefulSetPersistentVolumeClaimRetentionPolicy.unmarshal
    StatefulSetPersistentVolumeClaimRetentionPolicy.zero
    StatefulSetPersistentVolumeClaimRetentionPolicy.marshal
    (by intro a; simp [StatefulSetPersistentVolumeClaimRetentionPolicy.marshal])
    roundtrip_StatefulSetPersistentVolumeClaimRetentionPolicy pol
  simp only [P08ServerSetSpec.unmarshal, P08ServerSetSpec.marshal, P08ServerSetSpec.members,
    P08ServerSetSpec.fields, unmarshalStruct]
  refine (unmarshalObject_emitAll_cons _ _
    { P08ServerSetSpec.zero with Replicas := r } _ _ ?_ ?_).trans ?_
  · simp [P08ServerSetSpec.setField, int32Field, Except.map]
  · intro _ h
    rw [int32_eq_zero r h]
    rfl
  refine (unmarshalObject_emitAll_cons _ _
    { P08ServerSetSpec.zero with Replicas := r, Selector := sel } _ _ ?_ ?_).trans ?_
  · simp [P08ServerSetSpec.setField, ptrField, Except.map, P08ServerSetSpec.zero, hsel]
  · intro _ h
    cases sel <;> simp_all [ptrField, P08ServerSetSpec.zero]
  refine (unmarshalObject_emitAll_cons _ _
    { P08ServerSetSpec.zero with Replicas := r, Selector := sel, Template := t }
    _ _ ?_ ?_).trans ?_
  · simp [P08ServerSetSpec.setField, structField, Except.map]
  · intro h
    simp [structField] at h
  refine (unmarshalObject_emitAll_cons _ _
    { P08ServerSetSpec.zero with Replicas := r, Selector := sel, Template := t,
                                 VolumeClaimTemplates := vct }
    _ _ ?_ ?_).trans ?_
  · simp [P08ServerSetSpec.setField, sliceField, Except.map, hvct]
  · intro _ h
    cases vct <;> simp_all [sliceField, P08ServerSetSpec.zero]
  refine (unmarshalObject_emitAll_cons _ _
    { P08ServerSetSpec.zero with Replicas := r, Selector := sel, Template := t,
                                 VolumeClaimTemplates := vct, ServiceName := sn }
    _ _ ?_ ?_).trans ?_
  · simp [P08ServerSetSpec.setField, stringField, Except.map]
  · intro h
    simp [stringField] at h
  refine (unmarshalObject_emitAll_cons _ _
    { P08ServerSetSpec.zero with Replicas := r, Selector := sel, Template := t,
                                 VolumeClaimTemplates := vct, ServiceName := sn,
                                 PodManagementPolicy := pmp }
    _ _ ?_ ?_).trans ?_
  · simp [P08ServerSetSpec.setField, stringField, Except.map]
  · intro _ h
    simp only [stringField, decide_eq_true_eq] at h
    subst h
    rfl
  refine (unmarshalObject_emitAll_cons _ _
    { P08ServerSetSpec.zero with Replicas := r, Selector := sel, Template := t,
                                 VolumeClaimTemplates := vct, ServiceName := sn,
                                 PodManagementPolicy := pmp, UpdateStrategy := us }
    _ _ ?_ ?_).trans ?_
  · simp [P08ServerSetSpec.setField, structField, Except.map, P08ServerSetSpec.zero, hus]
  · intro h
    simp [structField] at h
  refine (unmarshalObject_emitAll_cons _ _
    { P08ServerSetSpec.zero with Replicas := r, Selector := sel, Template := t,
                                 VolumeClaimTemplates := vct, ServiceName := sn,
                                 PodManagementPolicy := pmp, UpdateStrategy := us,
                                 RevisionHistoryLimit := rhl }
    _ _ ?_ ?_).trans ?_
  · simp [P08ServerSetSpec.setField, ptrField, Except.map, P08ServerSetSpec.zero, hrhl]
  · intro h
    simp [ptrField] at h
  refine (unmarshalObject_emitAll_cons _ _
    { P08ServerSetSpec.zero with Replicas := r, Selector := sel, Template := t,
                                 VolumeClaimTemplates := vct, ServiceName := sn,
                                 PodManagementPolicy := pmp, UpdateStrategy := us,
                                 RevisionHistoryLimit := rhl, MinReadySeconds := mrs }
    _ _ ?_ ?_).trans ?_
  · simp [P08ServerSetSpec.setField, int32Field, Except.map]
  · intro _ h
    rw [int32_eq_zero mrs h]
    rfl
  refine (unmarshalObject_emitAll_cons _ _
    { P08ServerSetSpec.zero with Replicas := r, Selector := sel, Template := t,
                                 VolumeClaimTemplates := vct, ServiceName := sn,
                                 PodManagementPolicy := pmp, UpdateStrategy := us,
                                 RevisionHistoryLimit := rhl, MinReadySeconds := mrs,
                                 PersistentVolumeClaimRetentionPolicy := pol }
    _ _ ?_ ?_).trans ?_
  · simp [P08ServerSetSpec.setField, ptrField, Except.map, P08ServerSetSpec.zero, hpol]
  · intro _ h
    cases pol <;> simp_all [ptrField, P08ServerSetSpec.zero]
  rfl

theorem roundtrip_P08ServerSetStatus (s : P08ServerSetStatus)
    (h : ∀ c ∈ s.Conditions, c.LastTransitionTime.wholeSeconds) :
    P08ServerSetStatus.unmarshal P08ServerSetStatus.zero s.marshal = Except.ok s := by
  obtain ⟨og, r, rr, cr, ur, crev, urev, cc, conds, ar, ls⟩ := s
  simp only at h
  have hcc := unmarshalPtr_map unmarshalInt32 GoInt32.zero marshalInt32
    marshalInt32_ne_null (unmarshalInt32_marshalInt32 _) cc
  have hconds := unmarshalSlice_map StatefulSetCondition.unmarshal StatefulSetCondition.zero
    StatefulSetCondition.marshal conds (fun c hc => roundtrip_StatefulSetCondition c (h c hc))
  simp only [P08ServerSetStatus.unmarshal, P08ServerSetStatus.marshal,
    P08ServerSetStatus.members, P08ServerSetStatus.fields, unmarshalStruct]
  refine (unmarshalObject_emitAll_cons _ _
    { P08ServerSetStatus.zero with ObservedGeneration := og } _ _ ?_ ?_).trans ?_
  · simp [P08ServerSetStatus.setField, int64Field, Except.map]
  · intro _ h
    rw [int64_eq_zero og h]
    rfl
  refine (unmarshalObject_emitAll_cons _ _
    { P08ServerSetStatus.zero with ObservedGeneration := og, Replicas := r }
    _ _ ?_ ?_).trans ?_
  · simp [P08ServerSetStatus.setField, int32Field, Except.map]
  · intro h
    simp [int32Field] at h
  refine (unmarshalObject_emitAll_cons _ _
    { P08ServerSetStatus.zero with ObservedGeneration := og, Replicas := r,
                                   ReadyReplicas := rr }
    _ _ ?_ ?_).trans ?_
  · simp [P08ServerSetStatus.setField, int32Field, Except.map]
  · intro h
    simp [int32Field] at h
  refine (unmarshalObject_emitAll_cons _ _
    { P08ServerSetStatus.zero with ObservedGeneration := og, Replicas := r,
                                   ReadyReplicas := rr, CurrentReplicas := cr }
    _ _ ?_ ?_).trans ?_
  · simp [P08ServerSetStatus.setField, int32Field, Except.map]
  · intro h
    simp [int32Field] at h
  refine (unmarshalObject_emitAll_cons _ _
    { P08ServerSetStatus.zero with ObservedGeneration := og, Replicas := r,
                                   ReadyReplicas := rr, CurrentReplicas := cr,
                                   UpdatedReplicas := ur }
    _ _ ?_ ?_).trans ?_
  · simp [P08ServerSetStatus.setField, int32Field, Except.map]
  · intro h
    simp [int32Field] at h
  refine (unmarshalObject_emitAll_cons _ _
    { P08ServerSetStatus.zero with ObservedGeneration := og, Replicas := r,
                                   ReadyReplicas := rr, CurrentReplicas := cr,
                                   UpdatedReplicas := ur, CurrentRevision := crev }
    _ _ ?_ ?_).trans ?_
  · simp [P08ServerSetStatus.setField, stringField, Except.map]
  · intro h
    simp [stringField] at h
  refine (unmarshalObject_emitAll_cons _ _
    { P08ServerSetStatus.zero with ObservedGeneration := og, Replicas := r,
                                   ReadyReplicas := rr, CurrentReplicas := cr,
                                   UpdatedReplicas := ur, CurrentRevision := crev,
                                   UpdateRevision := urev }
    _ _ ?_ ?_).trans ?_
  · simp [P08ServerSetStatus.setField, stringField, Except.map]
  · intro h
    simp [stringField] at h
  refine (unmarshalObject_emitAll_cons _ _
    { P08ServerSetStatus.zero with ObservedGeneration := og, Replicas := r,
                                   ReadyReplicas := rr, CurrentReplicas := cr,
                                   UpdatedReplicas := ur, CurrentRevision := crev,
                                   UpdateRevision := urev, CollisionCount := cc }
    _ _ ?_ ?_).trans ?_
  · simp [P08ServerSetStatus.setField, ptrField, Except.map, P08ServerSetStatus.zero, hcc]
  · intro _ h
    cases cc <;> simp_all [ptrField, P08ServerSetStatus.zero]
  refine (unmarshalObject_emitAll_cons _ _
    { P08ServerSetStatus.zero with ObservedGeneration := og, Replicas := r,
                                   ReadyReplicas := rr, CurrentReplicas := cr,
                                   UpdatedReplicas := ur, CurrentRevision := crev,
                                   UpdateRevision := urev, CollisionCount := cc,
                                   Conditions := conds }
    _ _ ?_ ?_).trans ?_
  · simp [P08ServerSetStatus.setField, sliceField, Except.map, hconds]
  · intro h
    simp [sliceField] at h
  refine (unmarshalObject_emitAll_cons _ _
    { P08ServerSetStatus.zero with ObservedGeneration := og, Replicas := r,
                                   ReadyReplicas := rr, CurrentReplicas := cr,
                                   UpdatedReplicas := ur, CurrentRevision := crev,
                                   UpdateRevision := urev, CollisionCount := cc,
                                   Conditions := conds, AvailableReplicas := ar }
    _ _ ?_ ?_).trans ?_
  · simp [P08ServerSetStatus.setField, int32Field, Except.map]
  · intro _ h
    rw [int32_eq_zero ar h]
    rfl
  refine (unmarshalObject_emitAll_cons _ _
    { P08ServerSetStatus.zero with ObservedGeneration := og, Replicas := r,
                                   ReadyReplicas := rr, CurrentReplicas := cr,
                                   UpdatedReplicas := ur, CurrentRevision := crev,
                                   UpdateRevision := urev, CollisionCount := cc,
                                   Conditions := conds, AvailableReplicas := ar,
                                   LabelSelector := ls }
    _ _ ?_ ?_).trans ?_
  · simp [P08ServerSetStatus.setField, stringField, Except.map]
  · intro _ h
    simp only [stringField, decide_eq_true_eq] at h
    subst h
    rfl
  rfl

/-! ## Keys that are not in a document -/

theorem except_map_eq_ok {ε α β : Type} {f : α → β} {e : Except ε α} {b : β}
    (h : e.map f = Except.ok b) : ∃ a, e = Except.ok a ∧ f a = b := by
  cases e <;> simp_all [Except.map]

/-- Storing a member whose key is none of the four defaulted keys leaves the
four defaulted fields of a spec as they are. -/
theorem P08ServerSetSpec.setField_defaulted (s s1 : P08ServerSetSpec) (k : String) (v : Json)
    (h1 : k ≠ "replicas") (h2 : k ≠ "podManagementPolicy") (h3 : k ≠ "revisionHistoryLimit")
    (h4 : k ≠ "persistentVolumeClaimRetentionPolicy")
    (h : P08ServerSetSpec.setField s k v = Except.ok s1) :
    s1.Replicas = s.Replicas ∧ s1.PodManagementPolicy = s.PodManagementPolicy ∧
      s1.RevisionHistoryLimit = s.RevisionHistoryLimit ∧
      s1.PersistentVolumeClaimRetentionPolicy = s.PersistentVolumeClaimRetentionPolicy := by
  unfold P08ServerSetSpec.setField at h
  simp only [parseTag_replicas_omitempty, parseTag_selector_omitempty, parseTag_template,
    parseTag_volumeClaimTemplates_omitempty, parseTag_serviceName,
    parseTag_podManagementPolicy_omitempty, parseTag_updateStrategy,
    parseTag_revisionHistoryLimit, parseTag_minReadySeconds_omitempty,
    parseTag_persistentVolumeClaimRetentionPolicy_omitempty] at h
  split_ifs at h
  all_goals first
    | contradiction
    | (obtain ⟨x, -, rfl⟩ := except_map_eq_ok h
       exact ⟨rfl, rfl, rfl, rfl⟩)
    | (cases h
       exact ⟨rfl, rfl, rfl, rfl⟩)

theorem P08ServerSetSpec.unmarshalObject_defaulted (doc : Object) :
    ∀ (s s1 : P08ServerSetSpec),
      "replicas" ∉ keys doc → "podManagementPolicy" ∉ keys doc →
      "revisionHistoryLimit" ∉ keys doc →
      "persistentVolumeClaimRetentionPolicy" ∉ keys doc →
      unmarshalObject P08ServerSetSpec.setField s doc = Except.ok s1 →
      s1.Replicas = s.Replicas ∧ s1.PodManagementPolicy = s.PodManagementPolicy ∧
        s1.RevisionHistoryLimit = s.RevisionHistoryLimit ∧
        s1.PersistentVolumeClaimRetentionPolicy = s.PersistentVolumeClaimRetentionPolicy := by
  induction doc with
  | nil =>
    intro s s1 _ _ _ _ h
    simp only [unmarshalObject, Except.ok.injEq] at h
    subst h
    exact ⟨rfl, rfl, rfl, rfl⟩
  | cons kv rest ih =>
    obtain ⟨k, v⟩ := kv
    intro s s1 h1 h2 h3 h4 h
    simp only [keys, List.map_cons, List.mem_cons, not_or] at h1 h2 h3 h4
    simp only [unmarshalObject] at h
    cases hs : P08ServerSetSpec.setField s k v with
    | error e => simp [hs] at h
    | ok s2 =>
      simp only [hs] at h
      have hstep := P08ServerSetSpec.setField_defaulted s s2 k v (Ne.symm h1.1) (Ne.symm h2.1)
        (Ne.symm h3.1) (Ne.symm h4.1) hs
      have hrest := ih s2 s1 h1.2 h2.2 h3.2 h4.2 h
      exact ⟨hrest.1.trans hstep.1, hrest.2.1.trans hstep.2.1,
        hrest.2.2.1.trans hstep.2.2.1, hrest.2.2.2.trans hstep.2.2.2⟩

theorem RollingUpdateStatefulSetStrategy.setField_maxUnavailable
    (r r1 : RollingUpdateStatefulSetStrategy) (k : String) (v : Json)
    (hk : k ≠ "maxUnvailable")
    (h : RollingUpdateStatefulSetStrategy.setField r k v = Except.ok r1) :
    r1.MaxUnavailable = r.MaxUnavailable := by
  unfold RollingUpdateStatefulSetStrategy.setField at h
  simp only [parseTag_partition, parseTag_maxUnvailable] at h
  split_ifs at h
  all_goals first
    | contradiction
    | (obtain ⟨x, -, rfl⟩ := except_map_eq_ok h
       rfl)
    | (cases h
       rfl)

theorem RollingUpdateStatefulSetStrategy.unmarshalObject_maxUnavailable (doc : Object) :
    ∀ (r r1 : RollingUpdateStatefulSetStrategy),
      "maxUnvailable" ∉ keys doc →
      unmarshalObject RollingUpdateStatefulSetStrategy.setField r doc = Except.ok r1 →
      r1.MaxUnavailable = r.MaxUnavailable := by
  induction doc with
  | nil =>
    intro r r1 _ h
    simp only [unmarshalObject, Except.ok.injEq] at h
    subst h
    rfl
  | cons kv rest ih =>
    obtain ⟨k, v⟩ := kv
    intro r r1 hk h
    simp only [keys, List.map_cons, List.mem_cons, not_or] at hk
    simp only [unmarshalObject] at h
    cases hs : RollingUpdateStatefulSetStrategy.setField r k v with
    | error e => simp [hs] at h
    | ok r2 =>
      simp only [hs] at h
      exact (ih r2 r1 hk.2 h).trans
        (RollingUpdateStatefulSetStrategy.setField_maxUnavailable r r2 k v (Ne.symm hk.1) hs)

theorem Registry.add_idem (r : Registry) (k : GroupVersionKind) (t : String) :
    (r.add k t).add k t = r.add k t := by
  unfold Registry.add
  by_cases h : k ∈ r.map Prod.fst
  · simp [h]
  · simp [h]

theorem Registry.mem_keys_add (r : Registry) (k k1 : GroupVersionKind) (t : String)
    (h : k1 ∈ r.map Prod.fst) : k1 ∈ (r.add k t).map Prod.fst := by
  unfold Registry.add
  split
  · exact h
  · simp only [List.map_append, List.mem_append]
    exact Or.inl h

theorem Registry.key_mem_add (r : Registry) (k : GroupVersionKind) (t : String) :
    k ∈ (r.add k t).map Prod.fst := by
  unfold Registry.add
  split
  · assumption
  · simp

theorem Registry.add_of_mem (r : Registry) (k : GroupVersionKind) (t : String)
    (h : k ∈ r.map Prod.fst) : r.add k t = r := by
  simp [Registry.add, h]

theorem Registry.nodup_add (r : Registry) (k : GroupVersionKind) (t : String)
    (h : (r.map Prod.fst).Nodup) : ((r.add k t).map Prod.fst).Nodup := by
  unfold Registry.add
  split
  · exact h
  · rename_i hk
    simp only [List.map_append, List.map_cons, List.map_nil]
    rw [List.nodup_append]
    refine ⟨h, List.nodup_singleton _, ?_⟩
    intro a ha hb
    simp only [List.mem_singleton] at hb
    subst hb
    exact hk ha

theorem init_idem (g v : String) (r : Registry) : init g v (init g v r) = init g v r := by
  unfold init
  have h1 : (⟨g, v, "P08ServerSet"⟩ : GroupVersionKind) ∈
      ((r.add ⟨g, v, "P08ServerSet"⟩ "P08ServerSet").add
        ⟨g, v, "P08ServerSetList"⟩ "P08ServerSetList").map Prod.fst :=
    Registry.mem_keys_add _ _ _ _ (Registry.key_mem_add _ _ _)
  rw [Registry.add_of_mem _ _ _ h1]
  exact Registry.add_idem _ _ _

theorem init_nodup (g v : String) (r : Registry) (h : (r.map Prod.fst).Nodup) :
    ((init g v r).map Prod.fst).Nodup :=
  Registry.nodup_add _ _ _ (Registry.nodup_add _ _ _ h)

/-! ## The claims -/

/-- C2, as stated, fails: the document of the example spec has the keys
`template`, `serviceName` and `revisionHistoryLimit` besides the three top-level
keys of the claim, so it is not true that it has no other key. -/
theorem exampleSpec_has_other_keys :
    "template" ∈ keys exampleSpec.members ∧
    "serviceName" ∈ keys exampleSpec.members ∧
    "revisionHistoryLimit" ∈ keys exampleSpec.members ∧
    ¬ (∀ k, k ∈ keys exampleSpec.members →
        k ∈ ["replicas", "podManagementPolicy", "updateStrategy"]) := by
  refine ⟨by decide, by decide, by decide, ?_⟩
  intro h
  exact absurd (h "serviceName" (by decide)) (by decide)

/-- C2, amended: the document of the example spec has exactly the top-level
keys `replicas`, `template`, `serviceName`, `podManagementPolicy`,
`updateStrategy` and `revisionHistoryLimit`; `replicas` is 3,
`podManagementPolicy` is "OrderedReady", `serviceName` is the empty string and
`revisionHistoryLimit` is null; `updateStrategy` has exactly the keys `type`,
which is "RollingUpdate", and `rollingUpdate`, whose `partition` is 1. -/
theorem exampleSpec_document :
    keys exampleSpec.members =
      ["replicas", "template", "serviceName", "podManagementPolicy", "updateStrategy",
        "revisionHistoryLimit"] ∧
    get? exampleSpec.members "replicas" = some (Json.num 3) ∧
    get? exampleSpec.members "podManagementPolicy" = some (Json.str "OrderedReady") ∧
    get? exampleSpec.members "serviceName" = some (Json.str "") ∧
    get? exampleSpec.members "revisionHistoryLimit" = some Json.null ∧
    ∃ us ru, get? exampleSpec.members "updateStrategy" = some (Json.obj us) ∧
      keys us = ["type", "rollingUpdate"] ∧
      get? us "type" = some (Json.str "RollingUpdate") ∧
      get? us "rollingUpdate" = some (Json.obj ru) ∧
      get? ru "partition" = some (Json.num 1) :=
  ⟨rfl, rfl, rfl, rfl, rfl, _, _, rfl, rfl, rfl, rfl, rfl⟩

/-- C3: a status with no conditions, all counts and the observed generation
zero and no collision count is written with `replicas`, `readyReplicas`,
`currentReplicas` and `updatedReplicas` present with value 0, and with neither
`observedGeneration` nor `collisionCount`. -/
theorem status_zero_counts_written (s : P08ServerSetStatus)
    (hconds : s.Conditions = []) (hr : s.Replicas = GoInt32.zero)
    (hrr : s.ReadyReplicas = GoInt32.zero) (hcr : s.CurrentReplicas = GoInt32.zero)
    (hur : s.UpdatedReplicas = GoInt32.zero) (hog : s.ObservedGeneration = GoInt64.zero)
    (hcc : s.CollisionCount = none) :
    get? s.members "replicas" = some (Json.num 0) ∧
    get? s.members "readyReplicas" = some (Json.num 0) ∧
    get? s.members "currentReplicas" = some (Json.num 0) ∧
    get? s.members "updatedReplicas" = some (Json.num 0) ∧
    "observedGeneration" ∉ keys s.members ∧
    "collisionCount" ∉ keys s.members := by
  obtain ⟨og, r, rr, cr, ur, crev, urev, cc, conds, ar, ls⟩ := s
  simp only at hconds hr hrr hcr hur hog hcc
  subst hconds hr hrr hcr hur hog hcc
  simp only [P08ServerSetStatus.members, P08ServerSetStatus.fields, emitAll, Field.emit,
    int64Field, int32Field, stringField, ptrField, sliceField, marshalInt32,
    parseTag_observedGeneration_omitempty, parseTag_replicas, parseTag_readyReplicas,
    parseTag_currentReplicas, parseTag_updatedReplicas, parseTag_currentRevision,
    parseTag_updateRevision, parseTag_collisionCount_omitempty, parseTag_conditions,
    parseTag_avaliableReplicas_omitempty, parseTag_labelSelector_omitempty]
  by_cases har : ar.val = 0 <;> by_cases hls : ls = "" <;>
    simp [har, hls, get?, keys, GoInt32.zero, GoInt64.zero]

/-- C3 at the zero status. -/
theorem status_zero_counts_written_witness :
    get? P08ServerSetStatus.zero.members "replicas" = some (Json.num 0) ∧
    get? P08ServerSetStatus.zero.members "readyReplicas" = some (Json.num 0) ∧
    get? P08ServerSetStatus.zero.members "currentReplicas" = some (Json.num 0) ∧
    get? P08ServerSetStatus.zero.members "updatedReplicas" = some (Json.num 0) ∧
    "observedGeneration" ∉ keys P08ServerSetStatus.zero.members ∧
    "collisionCount" ∉ keys P08ServerSetStatus.zero.members :=
  status_zero_counts_written P08ServerSetStatus.zero rfl rfl rfl rfl rfl rfl rfl

/-- C4: a spec whose optional fields are all unset is written without the
keys `replicas`, `selector`, `volumeClaimTemplates`, `podManagementPolicy`,
`minReadySeconds` and `persistentVolumeClaimRetentionPolicy`: its document has
the four remaining keys and no other. -/
theorem spec_optional_fields_omitted (s : P08ServerSetSpec)
    (hr : s.Replicas = GoInt32.zero) (hsel : s.Selector = none)
    (hvct : s.VolumeClaimTemplates = []) (hpmp : s.PodManagementPolicy = "")
    (hmrs : s.MinReadySeconds = GoInt32.zero)
    (hpol : s.PersistentVolumeClaimRetentionPolicy = none) :
    "replicas" ∉ keys s.members ∧ "selector" ∉ keys s.members ∧
    "volumeClaimTemplates" ∉ keys s.members ∧ "podManagementPolicy" ∉ keys s.members ∧
    "minReadySeconds" ∉ keys s.members ∧
    "persistentVolumeClaimRetentionPolicy" ∉ keys s.members ∧
    keys s.members = ["template", "serviceName", "updateStrategy", "revisionHistoryLimit"] := by
  obtain ⟨r, sel, t, vct, sn, pmp, us, rhl, mrs, pol⟩ := s
  simp only at hr hsel hvct hpmp hmrs hpol
  subst hr hsel hvct hpmp hmrs hpol
  simp [P08ServerSetSpec.members, P08ServerSetSpec.fields, emitAll, Field.emit,
    int32Field, stringField, ptrField, sliceField, structField, keys, GoInt32.zero]

/-- C4 at the zero spec. -/
theorem spec_optional_fields_omitted_witness :
    "replicas" ∉ keys P08ServerSetSpec.zero.members ∧
    "selector" ∉ keys P08ServerSetSpec.zero.members ∧
    "volumeClaimTemplates" ∉ keys P08ServerSetSpec.zero.members ∧
    "podManagementPolicy" ∉ keys P08ServerSetSpec.zero.members ∧
    "minReadySeconds" ∉ keys P08ServerSetSpec.zero.members ∧
    "persistentVolumeClaimRetentionPolicy" ∉ keys P08ServerSetSpec.zero.members ∧
    keys P08ServerSetSpec.zero.members =
      ["template", "serviceName", "updateStrategy", "revisionHistoryLimit"] :=
  spec_optional_fields_omitted P08ServerSetSpec.zero rfl rfl rfl rfl rfl rfl

/-- C5, at the failing input: a rolling update whose MaxUnavailable is nil is
written with the key `maxUnvailable`, holding null, whatever its partition.
The two other parts of the claim hold: an update strategy whose RollingUpdate
is nil is written without `rollingUpdate`, and a retention policy is written
without `whenDeleted`, or `whenScaled`, when that field is empty. -/
theorem rollingUpdate_nil_maxUnavailable_written :
    (∀ p : GoInt32,
      RollingUpdateStatefulSetStrategy.marshal { Partition := p, MaxUnavailable := none } =
        Json.obj [("partition", marshalInt32 p), ("maxUnvailable", Json.null)]) ∧
    (∀ t : StatefulSetUpdateStrategyType,
      StatefulSetUpdateStrategy.marshal { Type_ := t, RollingUpdate := none } =
        Json.obj [("type", Json.str t)]) ∧
    (∀ w : PersistentVolumeClaimRetentionPolicyType,
      "whenDeleted" ∉ keys (emitAll (StatefulSetPersistentVolumeClaimRetentionPolicy.fields
        { WhenDeleted := "", WhenScaled := w }))) ∧
    (∀ w : PersistentVolumeClaimRetentionPolicyType,
      "whenScaled" ∉ keys (emitAll (StatefulSetPersistentVolumeClaimRetentionPolicy.fields
        { WhenDeleted := w, WhenScaled := "" }))) := by
  refine ⟨?_, ?_, ?_, ?_⟩
  · intro p
    simp [RollingUpdateStatefulSetStrategy.marshal, RollingUpdateStatefulSetStrategy.fields,
      emitAll, Field.emit, int32Field, ptrField]
  · intro t
    simp [StatefulSetUpdateStrategy.marshal, StatefulSetUpdateStrategy.fields, emitAll,
      Field.emit, stringField, ptrField]
  · intro w
    by_cases hw : w = "" <;>
      simp [StatefulSetPersistentVolumeClaimRetentionPolicy.fields, emitAll, Field.emit,
        stringField, keys, hw]
  · intro w
    by_cases hw : w = "" <;>
      simp [StatefulSetPersistentVolumeClaimRetentionPolicy.fields, emitAll, Field.emit,
        stringField, keys, hw]

/-- C6: a spec in which every optional field is set is written with exactly
the ten keys of the spec table, and a status in which every optional field is
set with exactly the eleven keys of the status table, `avaliableReplicas`
spelled so. -/
theorem field_name_tables (s : P08ServerSetSpec) (t : P08ServerSetStatus)
    (hr : s.Replicas.val ≠ 0) (hsel : s.Selector ≠ none)
    (hvct : s.VolumeClaimTemplates ≠ []) (hpmp : s.PodManagementPolicy ≠ "")
    (hmrs : s.MinReadySeconds.val ≠ 0)
    (hpol : s.PersistentVolumeClaimRetentionPolicy ≠ none)
    (hog : t.ObservedGeneration.val ≠ 0) (hcc : t.CollisionCount ≠ none)
    (har : t.AvailableReplicas.val ≠ 0) (hls : t.LabelSelector ≠ "") :
    keys s.members =
      ["replicas", "selector", "template", "volumeClaimTemplates", "serviceName",
        "podManagementPolicy", "updateStrategy", "revisionHistoryLimit", "minReadySeconds",
        "persistentVolumeClaimRetentionPolicy"] ∧
    keys t.members =
      ["observedGeneration", "replicas", "readyReplicas", "currentReplicas",
        "updatedReplicas", "currentRevision", "updateRevision", "collisionCount",
        "conditions", "avaliableReplicas", "labelSelector"] := by
  obtain ⟨r, sel, tp, vct, sn, pmp, us, rhl, mrs, pol⟩ := s
  obtain ⟨og, r1, rr, cr, ur, crev, urev, cc, conds, ar, ls⟩ := t
  simp only at hr hsel hvct hpmp hmrs hpol hog hcc har hls
  constructor
  · cases sel with
    | none => exact absurd rfl hsel
    | some sel =>
      cases pol with
      | none => exact absurd rfl hpol
      | some pol =>
        cases vct with
        | nil => exact absurd rfl hvct
        | cons c vct =>
          simp [P08ServerSetSpec.members, P08ServerSetSpec.fields, emitAll, Field.emit,
            int32Field, stringField, ptrField, sliceField, structField, keys, hr, hpmp, hmrs]
  · cases cc with
    | none => exact absurd rfl hcc
    | some cc =>
      simp [P08ServerSetStatus.members, P08ServerSetStatus.fields, emitAll, Field.emit,
        int64Field, int32Field, stringField, ptrField, sliceField, keys, hog, har, hls]

/-- C6 at a spec and a status with every field set. -/
theorem field_name_tables_witness :
    keys (P08ServerSetSpec.members
      { Replicas := ⟨2, by decide⟩
        Selector := some [("matchLabels", Json.obj [("app", Json.str "p08")])]
        Template := [("metadata", Json.obj [])]
        VolumeClaimTemplates := [[("metadata", Json.obj [("name", Json.str "data")])]]
        ServiceName := "p08"
        PodManagementPolicy := ParallelPodManagement
        UpdateStrategy := ⟨OnDeleteStatefulSetStrategyType, none⟩
        RevisionHistoryLimit := some ⟨10, by decide⟩
        MinReadySeconds := ⟨5, by decide⟩
        PersistentVolumeClaimRetentionPolicy :=
          some ⟨DeletePersistentVolumeClaimRetentionPolicyType,
            RetainPersistentVolumeClaimRetentionPolicyType⟩ }) =
      ["replicas", "selector", "template", "volumeClaimTemplates", "serviceName",
        "podManagementPolicy", "updateStrategy", "revisionHistoryLimit", "minReadySeconds",
        "persistentVolumeClaimRetentionPolicy"] ∧
    keys (P08ServerSetStatus.members
      { ObservedGeneration := ⟨7, by decide⟩
        Replicas := ⟨2, by decide⟩
        ReadyReplicas := ⟨2, by decide⟩
        CurrentReplicas := ⟨1, by decide⟩
        UpdatedReplicas := ⟨1, by decide⟩
        CurrentRevision := "p08-1"
        UpdateRevision := "p08-2"
        CollisionCount := some ⟨1, by decide⟩
        Conditions := [⟨"Ready", "True", ⟨2025, 1, 1, 0, 0, 0, 0⟩, "Up", "all pods up"⟩]
        AvailableReplicas := ⟨2, by decide⟩
        LabelSelector := "app=p08" }) =
      ["observedGeneration", "replicas", "readyReplicas", "currentReplicas",
        "updatedReplicas", "currentRevision", "updateRevision", "collisionCount",
        "conditions", "avaliableReplicas", "labelSelector"] :=
  field_name_tables _ _ (by decide) (by simp) (by simp) (by decide) (by decide) (by simp)
    (by decide) (by simp) (by decide) (by decide)

/-- C7, as stated, fails: "Sideways" is a value of the pod-management-policy
type that is neither of its two constants, and a spec document holding it is
accepted and read into the field as it is. -/
theorem enum_not_closed :
    ("Sideways" : PodManagementPolicyType) ≠ OrderedReadyPodManagement ∧
    ("Sideways" : PodManagementPolicyType) ≠ ParallelPodManagement ∧
    P08ServerSetSpec.unmarshal P08ServerSetSpec.zero
        (Json.obj [("podManagementPolicy", Json.str "Sideways")]) =
      Except.ok { P08ServerSetSpec.zero with PodManagementPolicy := "Sideways" } :=
  ⟨by decide, by decide, rfl⟩

/-- C7, amended: each enumeration is a string type with two named constants,
and a document whose enumeration field holds any string at all is accepted,
the string being stored unchanged. -/
theorem enum_any_string_accepted (x : String) :
    (OrderedReadyPodManagement = "OrderedReady" ∧ ParallelPodManagement = "Parallel" ∧
      RollingUpdateStatefulSetStrategyType = "RollingUpdate" ∧
      OnDeleteStatefulSetStrategyType = "OnDelete" ∧
      RetainPersistentVolumeClaimRetentionPolicyType = "Retain" ∧
      DeletePersistentVolumeClaimRetentionPolicyType = "Delete") ∧
    P08ServerSetSpec.unmarshal P08ServerSetSpec.zero
        (Json.obj [("podManagementPolicy", Json.str x)]) =
      Except.ok { P08ServerSetSpec.zero with PodManagementPolicy := x } ∧
    StatefulSetUpdateStrategy.unmarshal StatefulSetUpdateStrategy.zero
        (Json.obj [("type", Json.str x)]) =
      Except.ok { StatefulSetUpdateStrategy.zero with Type_ := x } ∧
    StatefulSetPersistentVolumeClaimRetentionPolicy.unmarshal
        StatefulSetPersistentVolumeClaimRetentionPolicy.zero
        (Json.obj [("whenDeleted", Json.str x), ("whenScaled", Json.str x)]) =
      Except.ok { WhenDeleted := x, WhenScaled := x } := by
  refine ⟨⟨rfl, rfl, rfl, rfl, rfl, rfl⟩, ?_, ?_, ?_⟩
  · simp [P08ServerSetSpec.unmarshal, unmarshalStruct, unmarshalObject,
      P08ServerSetSpec.setField, Except.map]
  · simp [StatefulSetUpdateStrategy.unmarshal, unmarshalStruct, unmarshalObject,
      StatefulSetUpdateStrategy.setField, Except.map]
  · simp [StatefulSetPersistentVolumeClaimRetentionPolicy.unmarshal, unmarshalStruct,
      unmarshalObject, StatefulSetPersistentVolumeClaimRetentionPolicy.setField, Except.map,
      StatefulSetPersistentVolumeClaimRetentionPolicy.zero]

/-- C8: reading a spec document that has none of the keys `replicas`,
`podManagementPolicy`, `revisionHistoryLimit` and
`persistentVolumeClaimRetentionPolicy` into a fresh spec leaves Replicas 0,
PodManagementPolicy empty, RevisionHistoryLimit nil and
PersistentVolumeClaimRetentionPolicy nil: no default is put in their place.
Nor does writing put one: the document of any spec is read back as that very
spec. -/
theorem defaults_not_applied (doc : Object) (s : P08ServerSetSpec)
    (h1 : "replicas" ∉ keys doc) (h2 : "podManagementPolicy" ∉ keys doc)
    (h3 : "revisionHistoryLimit" ∉ keys doc)
    (h4 : "persistentVolumeClaimRetentionPolicy" ∉ keys doc)
    (hdec : P08ServerSetSpec.unmarshal P08ServerSetSpec.zero (Json.obj doc) = Except.ok s) :
    (s.Replicas = GoInt32.zero ∧ s.PodManagementPolicy = "" ∧
      s.RevisionHistoryLimit = none ∧ s.PersistentVolumeClaimRetentionPolicy = none) ∧
    ∀ t : P08ServerSetSpec,
      P08ServerSetSpec.unmarshal P08ServerSetSpec.zero t.marshal = Except.ok t :=
  ⟨P08ServerSetSpec.unmarshalObject_defaulted doc P08ServerSetSpec.zero s h1 h2 h3 h4 hdec,
    roundtrip_P08ServerSetSpec⟩

/-- C8 at a document that holds a service name and an update strategy of
type OnDelete and nothing else, which is read without error. -/
theorem defaults_not_applied_witness :
    ∃ s, P08ServerSetSpec.unmarshal P08ServerSetSpec.zero
        (Json.obj [("serviceName", Json.str "p08"),
          ("updateStrategy", Json.obj [("type", Json.str "OnDelete")])]) = Except.ok s ∧
      s.ServiceName = "p08" ∧ s.Replicas = GoInt32.zero ∧ s.PodManagementPolicy = "" ∧
      s.RevisionHistoryLimit = none ∧ s.PersistentVolumeClaimRetentionPolicy = none :=
  ⟨{ P08ServerSetSpec.zero with ServiceName := "p08", UpdateStrategy := ⟨"OnDelete", none⟩ },
    rfl, rfl,
    (defaults_not_applied
      [("serviceName", Json.str "p08"),
        ("updateStrategy", Json.obj [("type", Json.str "OnDelete")])]
      _ (by decide) (by decide) (by decide) (by decide) rfl).1⟩

/-- C9: registering P08ServerSet and P08ServerSetList twice gives the registry
that registering them once gives, and a registry without duplicate keys has
none after the second registration. -/
theorem registration_idempotent (group version : String) (r : Registry) :
    init group version (init group version r) = init group version r ∧
    ((r.map Prod.fst).Nodup →
      ((init group version (init group version r)).map Prod.fst).Nodup) :=
  ⟨init_idem group version r,
    fun h => init_nodup group version _ (init_nodup group version r h)⟩

/-- C9 at the empty registry. -/
theorem registration_idempotent_witness :
    init "p08" "v1" (init "p08" "v1" []) =
      [(⟨"p08", "v1", "P08ServerSet"⟩, "P08ServerSet"),
        (⟨"p08", "v1", "P08ServerSetList"⟩, "P08ServerSetList")] ∧
    ((init "p08" "v1" (init "p08" "v1" [])).map Prod.fst).Nodup :=
  ⟨(registration_idempotent "p08" "v1" []).1.trans (by decide),
    (registration_idempotent "p08" "v1" []).2 List.nodup_nil⟩

/-- C10: a rolling-update document with the key `maxUnavailable` and without
the key `maxUnvailable` is read into a strategy whose MaxUnavailable is nil,
and no strategy is written with a key `maxUnavailable`. -/
theorem maxUnavailable_only_under_maxUnvailable (doc : Object)
    (r : RollingUpdateStatefulSetStrategy)
    (_hhas : "maxUnavailable" ∈ keys doc) (hno : "maxUnvailable" ∉ keys doc)
    (hdec : RollingUpdateStatefulSetStrategy.unmarshal RollingUpdateStatefulSetStrategy.zero
      (Json.obj doc) = Except.ok r) :
    r.MaxUnavailable = none ∧
    ∀ w : RollingUpdateStatefulSetStrategy, "maxUnavailable" ∉ keys w.marshal.members := by
  constructor
  · exact RollingUpdateStatefulSetStrategy.unmarshalObject_maxUnavailable doc
      RollingUpdateStatefulSetStrategy.zero r hno hdec
  · intro w
    simp [RollingUpdateStatefulSetStrategy.marshal, RollingUpdateStatefulSetStrategy.fields,
      Json.members, emitAll, Field.emit, int32Field, ptrField, keys]

/-- C10 at the document with `partition` 2 and `maxUnavailable` 1, which is
read without error. -/
theorem maxUnavailable_only_under_maxUnvailable_witness :
    ∃ r, RollingUpdateStatefulSetStrategy.unmarshal RollingUpdateStatefulSetStrategy.zero
        (Json.obj [("partition", Json.num 2), ("maxUnavailable", Json.num 1)]) =
        Except.ok r ∧
      r.Partition.val = 2 ∧ r.MaxUnavailable = none :=
  ⟨{ Partition := ⟨2, by decide⟩, MaxUnavailable := none }, rfl, rfl,
    (maxUnavailable_only_under_maxUnvailable
      [("partition", Json.num 2), ("maxUnavailable", Json.num 1)] _
      (by decide) (by decide) rfl).1⟩

end V1
